import Mathlib

/-!
Verification of the interaction core of an OpenGL vector-drawing program.

The development shallowly embeds the C++ sources:
* `src/include/draw.hpp`          — renderer primitives, modelled as emitted draw-command lists
* `src/include/entity.hpp`, `src/src/basics/entity.hpp` — entity configuration records
* `src/src/basics/canvas.hpp`     — the scene registry (`Canvas::add_entity` / `delete_entity`)
* `src/src/basics/drafts.hpp`     — the per-shape draft state machines
* `src/src/basics/painter.hpp`    — the `Painter` controller, its menu, history and priorities

C++ `double` coordinates are modelled as exact rationals (`ℚ`); machine floating
point behaviour is out of scope, the geometry here is exact arithmetic.
Pointers to heap entities are modelled as natural-number identities handed out by
a monotone counter, and `std::unique_ptr` destruction is modelled as explicit
deregistration from the owning canvas.
-/

set_option maxHeartbeats 1000000

namespace opengl

/-- 2-D vertex, `opengl::Vertex2d` (coord.hpp). -/
structure Vertex2d where
  x : ℚ
  y : ℚ
deriving DecidableEq, Repr

/-- Colors (color.hpp).  The program resolves named theme colors and mixes of two
named colors; resolution to RGBA happens outside the interaction core, so a color
is modelled symbolically as its construction. -/
inductive Color where
  | named (name : String)
  | mixc (a b : String) (t : ℚ)
deriving DecidableEq, Repr

/-- `Line` entity configuration (entity.hpp). `end` is a Lean keyword, the source
field `end` is called `end_` here. -/
structure Line where
  start : Vertex2d
  end_ : Vertex2d
  color : Color
  stroke : ℚ
deriving DecidableEq, Repr

/-- `Rectangle` entity configuration (entity.hpp). -/
structure Rectangle where
  center : Vertex2d
  width : ℚ
  height : ℚ
  corner_radius : Option ℚ
  color : Color
  fill_color : Option Color
  stroke : ℚ
deriving DecidableEq, Repr

/-- `Polygon` entity configuration (entity.hpp). -/
structure Polygon where
  points : List Vertex2d
  color : Color
  fill_color : Option Color
  stroke : ℚ
deriving DecidableEq, Repr

/-- `Polyline` entity configuration (entity.hpp). -/
structure Polyline where
  points : List Vertex2d
  color : Color
  stroke : ℚ
deriving DecidableEq, Repr

/-- `Circle` entity configuration (entity.hpp). -/
structure Circle where
  center : Vertex2d
  radius : ℚ
  color : Color
  fill_color : Option Color
  stroke : ℚ
deriving DecidableEq, Repr

/-- The drawable entity payloads the painter creates (closed sum over the
entity structs of entity.hpp that the interaction core instantiates, plus the
menu overlay entity of painter.hpp, whose drawing reads the separately owned
menu state). -/
inductive EntityConfig where
  | line (c : Line)
  | rectangle (c : Rectangle)
  | polygon (c : Polygon)
  | polyline (c : Polyline)
  | circle (c : Circle)
  | menuOverlay
deriving DecidableEq, Repr

namespace draw

/-- One renderer call.  The renderer (draw.hpp) issues immediate-mode GL
primitives; a draw function is modelled as the list of commands it emits.
`lineQuad` stands for the translated/rotated filled quad that `draw::line`
emits for a non-degenerate segment (the rotation angle is a function of the
recorded endpoints and is not duplicated here). -/
inductive DrawCmd where
  | rectFilled (center : Vertex2d) (w h : ℚ) (color : Color)
  | circleFilled (center : Vertex2d) (radius : ℚ) (color : Color) (segments : Nat)
  | lineQuad (start end_ : Vertex2d) (scaledWidth : ℚ) (color : Color)
  | triangleFill (p1 p2 p3 : Vertex2d) (color : Color)
deriving DecidableEq, Repr

/-- `draw::kLineWidthScale = 0.03`. -/
def kLineWidthScale : ℚ := 3 / 100

/-- `std::numeric_limits<double>::epsilon() = 2^-52`, used by `draw::line` for
its degeneracy test. -/
def doubleEpsilon : ℚ := 1 / 2 ^ 52

/-- `draw::line` (draw.hpp).  The source compares `hypot dx dy ≤ ε`; over the
rationals this is expressed by the equivalent `dx² + dy² ≤ ε²`. -/
def line (start end_ : Vertex2d) (color : Color) (width : ℚ) : List DrawCmd :=
  let scaled_width := width * kLineWidthScale
  if scaled_width ≤ 0 then []
  else
    let dx := end_.x - start.x
    let dy := end_.y - start.y
    if dx ^ 2 + dy ^ 2 ≤ doubleEpsilon ^ 2 then
      [DrawCmd.rectFilled start scaled_width scaled_width color]
    else
      [DrawCmd.lineQuad start end_ scaled_width color]

/-- `draw::detail::draw_polyline` (draw.hpp): joint dots at every point, then
the consecutive segments, then the closing segment when `closed`. -/
def draw_polyline (points : List Vertex2d) (closed : Bool) (color : Color) (width : ℚ) :
    List DrawCmd :=
  if points.length < 2 then []
  else
    let joint_radius := 1 / 2 * width * kLineWidthScale
    let joints :=
      if 0 < joint_radius then
        points.map (fun p => DrawCmd.circleFilled p joint_radius color 18)
      else []
    let segs := (points.zip points.tail).flatMap (fun ab => line ab.1 ab.2 color width)
    let closing :=
      if closed then
        match points.getLast?, points.head? with
        | some lst, some hd => line lst hd color width
        | _, _ => []
      else []
    joints ++ segs ++ closing

end draw

/-- `PolygonEntity::draw` (src/basics/entity.hpp): triangle fan fill when a fill
color is present and at least 3 points exist, then the closed outline. -/
def PolygonEntity_draw (config : Polygon) : List draw.DrawCmd :=
  if config.points.length < 2 then []
  else
    let fills :=
      match config.fill_color, config.points with
      | some fc, p0 :: rest =>
        if 3 ≤ config.points.length then
          (rest.zip rest.tail).map (fun ab => draw.DrawCmd.triangleFill p0 ab.1 ab.2 fc)
        else []
      | _, _ => []
    let outline :=
      if 0 < config.stroke then draw.draw_polyline config.points true config.color config.stroke
      else []
    fills ++ outline

/-- `PolylineEntity::draw` (src/basics/entity.hpp). -/
def PolylineEntity_draw (config : Polyline) : List draw.DrawCmd :=
  if config.points.length < 2 ∨ config.stroke ≤ 0 then []
  else draw.draw_polyline config.points false config.color config.stroke

/-! ## Scene registry (`Canvas` in src/basics/canvas.hpp)

`std::set<Entity*> entities` keeps the live entities; entity pointers are
modelled as numeric identities and the set as its membership (kept in insertion
order, which the program's loop over a pointer-ordered set never observes for
the properties below).  `std::map<Entity*, EntityAttribute> entity_attributes`
is modelled as an association list. -/

/-- Association-list write, `entity_attributes[entity] = attr`: overwrites the
binding for the key if present, otherwise appends. -/
def assocSet (l : List (Nat × Int)) (k : Nat) (v : Int) : List (Nat × Int) :=
  match l with
  | [] => [(k, v)]
  | (k', v') :: rest => if k' = k then (k, v) :: rest else (k', v') :: assocSet rest k v

/-- Association-list lookup; attributes are only read for registered entities,
so the default is never observed by the program. -/
def assocGet (l : List (Nat × Int)) (k : Nat) : Int :=
  match l with
  | [] => 0
  | (k', v') :: rest => if k' = k then v' else assocGet rest k

/-- The scene registry state of `Canvas` (canvas.hpp): live entity set,
per-entity attributes, and the priority counter. -/
structure CanvasReg where
  entities : List Nat
  entity_attributes : List (Nat × Int)
  priority_counter : Int
deriving DecidableEq, Repr

/-- A canvas as constructed: no entities, `priority_counter = 0`. -/
def CanvasReg.init : CanvasReg := { entities := [], entity_attributes := [], priority_counter := 0 }

/-- `Canvas::add_entity`: inserts into the live set and assigns
`EntityAttribute{priority_counter += 10}` — the counter is bumped by 10 and the
new value becomes the entity's priority. -/
def CanvasReg.add_entity (c : CanvasReg) (entity : Nat) : CanvasReg :=
  { entities := if entity ∈ c.entities then c.entities else c.entities ++ [entity]
    entity_attributes := assocSet c.entity_attributes entity (c.priority_counter + 10)
    priority_counter := c.priority_counter + 10 }

/-- `Canvas::delete_entity`: erases the entity from the live set if present,
otherwise throws `std::runtime_error("Entity ... not found")`.  The pair is the
state after the call together with the raised error, if any; on the error path
the registry is untouched. -/
def CanvasReg.delete_entity (c : CanvasReg) (entity : Nat) : CanvasReg × Option String :=
  if entity ∈ c.entities then ({ c with entities := c.entities.erase entity }, none)
  else (c, some s!"Entity {entity} not found")

/-- Priority of an entity as recorded by the registry. -/
def CanvasReg.priorityOf (c : CanvasReg) (entity : Nat) : Int :=
  assocGet c.entity_attributes entity

/-- An `add`/`remove` request against the scene registry. -/
inductive RegOp where
  | add (entity : Nat)
  | remove (entity : Nat)
deriving DecidableEq, Repr

/-- Run one registry operation (the remove keeps the post-call state whether or
not it raised). -/
def CanvasReg.applyOp (c : CanvasReg) (op : RegOp) : CanvasReg :=
  match op with
  | .add e => c.add_entity e
  | .remove e => (c.delete_entity e).1

/-- Run a sequence of registry operations left to right. -/
def CanvasReg.runOps (c : CanvasReg) (ops : List RegOp) : CanvasReg :=
  ops.foldl CanvasReg.applyOp c

/-- The multiset of entities added by a sequence. -/
def RegOp.adds (ops : List RegOp) : Multiset Nat :=
  (ops.filterMap fun op => match op with | .add e => some e | .remove _ => none : List Nat)

/-- The multiset of entities removed by a sequence. -/
def RegOp.removes (ops : List RegOp) : Multiset Nat :=
  (ops.filterMap fun op => match op with | .add _ => none | .remove e => some e : List Nat)

/-- Validity of a sequence: every added entity is a fresh object (a newly
constructed `Entity*` is never already a member) and every removed entity is a
current member, as the claims assume. -/
inductive ValidOps : CanvasReg → List RegOp → Prop where
  | nil (c : CanvasReg) : ValidOps c []
  | add (c : CanvasReg) (e : Nat) (ops : List RegOp) (fresh : e ∉ c.entities)
      (rest : ValidOps (c.add_entity e) ops) : ValidOps c (RegOp.add e :: ops)
  | remove (c : CanvasReg) (e : Nat) (ops : List RegOp) (mem : e ∈ c.entities)
      (rest : ValidOps ((c.delete_entity e).1) ops) : ValidOps c (RegOp.remove e :: ops)

theorem assocGet_assocSet_same (l : List (Nat × Int)) (k : Nat) (v : Int) :
    assocGet (assocSet l k v) k = v := by
  induction l with
  | nil => simp [assocSet, assocGet]
  | cons hd tl ih =>
    by_cases h : hd.1 = k <;> simp [assocSet, assocGet, h, ih]

theorem assocGet_assocSet_other (l : List (Nat × Int)) (k k' : Nat) (v : Int) (h : k' ≠ k) :
    assocGet (assocSet l k v) k' = assocGet l k' := by
  induction l with
  | nil => simp [assocSet, assocGet, Ne.symm h]
  | cons hd tl ih =>
    obtain ⟨a, b⟩ := hd
    by_cases hk : a = k
    · subst hk
      simp [assocSet, assocGet, Ne.symm h]
    · simp [assocSet, assocGet, hk, ih]

/-- Well-formedness of the registry: no duplicate live entities, live
priorities strictly increasing in insertion order, and all live priorities at
most the counter. -/
def RegWF (c : CanvasReg) : Prop :=
  c.entities.Nodup ∧
  (c.entities.map c.priorityOf).Pairwise (· < ·) ∧
  ∀ e ∈ c.entities, c.priorityOf e ≤ c.priority_counter

theorem RegWF.init_canvas : RegWF CanvasReg.init := by
  refine ⟨by simp [CanvasReg.init], by simp [CanvasReg.init], by simp [CanvasReg.init]⟩

theorem RegWF.add_entity {c : CanvasReg} (hwf : RegWF c) {e : Nat} (fresh : e ∉ c.entities) :
    RegWF (c.add_entity e) := by
  obtain ⟨hnd, hpw, hle⟩ := hwf
  have hpri : ∀ x ∈ c.entities, (c.add_entity e).priorityOf x = c.priorityOf x := by
    intro x hx
    have hne : x ≠ e := fun h => fresh (h ▸ hx)
    simp [CanvasReg.add_entity, CanvasReg.priorityOf, assocGet_assocSet_other _ _ _ _ hne]
  have hent : (c.add_entity e).entities = c.entities ++ [e] := by
    simp [CanvasReg.add_entity, fresh]
  have hprie : (c.add_entity e).priorityOf e = c.priority_counter + 10 := by
    simp [CanvasReg.add_entity, CanvasReg.priorityOf, assocGet_assocSet_same]
  refine ⟨?_, ?_, ?_⟩
  · rw [hent, List.nodup_append]
    refine ⟨hnd, List.nodup_singleton e, ?_⟩
    intro a ha hae
    exact fresh ((List.mem_singleton.1 hae) ▸ ha)
  · rw [hent, List.map_append]
    have hmap : c.entities.map (c.add_entity e).priorityOf = c.entities.map c.priorityOf :=
      List.map_congr_left hpri
    rw [hmap]
    refine List.pairwise_append.2 ⟨hpw, by simp, ?_⟩
    intro x hx y hy
    simp only [List.map_cons, List.map_nil, List.mem_singleton] at hy
    rw [hy, hprie]
    obtain ⟨a, ha, rfl⟩ := List.mem_map.1 hx
    have := hle a ha
    omega
  · intro x hx
    rw [hent] at hx
    rcases List.mem_append.1 hx with hx | hx
    · rw [hpri x hx]
      have := hle x hx
      simp only [CanvasReg.add_entity]
      omega
    · simp only [List.mem_singleton] at hx
      subst hx
      rw [hprie]
      simp only [CanvasReg.add_entity]
      omega

theorem RegWF.delete_entity {c : CanvasReg} (hwf : RegWF c) (e : Nat) :
    RegWF ((c.delete_entity e).1) := by
  obtain ⟨hnd, hpw, hle⟩ := hwf
  by_cases hmem : e ∈ c.entities
  · have h1 : (c.delete_entity e).1 = { c with entities := c.entities.erase e } := by
      simp [CanvasReg.delete_entity, hmem]
    rw [h1]
    have hpriEq : ({ c with entities := c.entities.erase e } : CanvasReg).priorityOf
        = c.priorityOf := rfl
    refine ⟨hnd.erase e, ?_, ?_⟩
    · rw [hpriEq]
      exact hpw.sublist ((c.entities.erase_sublist e).map _)
    · intro x hx
      rw [hpriEq]
      exact hle x ((c.entities.erase_sublist e).mem hx)
  · have h1 : (c.delete_entity e).1 = c := by
      simp [CanvasReg.delete_entity, hmem]
    rw [h1]
    exact ⟨hnd, hpw, hle⟩

theorem runOps_spec {c : CanvasReg} {ops : List RegOp} (h : ValidOps c ops) (hwf : RegWF c) :
    RegWF (c.runOps ops) ∧
      ((c.runOps ops).entities : Multiset Nat)
        = (c.entities : Multiset Nat) + RegOp.adds ops - RegOp.removes ops := by
  induction h with
  | nil c =>
    refine ⟨hwf, ?_⟩
    simp [CanvasReg.runOps, RegOp.adds, RegOp.removes]
  | add c e ops fresh _ ih =>
    have hstep : c.runOps (RegOp.add e :: ops) = (c.add_entity e).runOps ops := rfl
    obtain ⟨ihwf, ihms⟩ := ih (hwf.add_entity fresh)
    refine ⟨hstep ▸ ihwf, ?_⟩
    rw [hstep, ihms]
    have hent : (c.add_entity e).entities = c.entities ++ [e] := by
      simp [CanvasReg.add_entity, fresh]
    have hadds : RegOp.adds (RegOp.add e :: ops) = e ::ₘ RegOp.adds ops := by
      simp [RegOp.adds]
    have hcoe : ((c.entities ++ [e] : List Nat) : Multiset Nat)
        = (c.entities : Multiset Nat) + {e} := by
      rw [← Multiset.coe_add]
      rfl
    have hrem : RegOp.removes (RegOp.add e :: ops) = RegOp.removes ops := by
      simp [RegOp.removes]
    rw [hent, hadds, hcoe, add_assoc, Multiset.singleton_add, hrem]
  | remove c e ops hmem _ ih =>
    have hstep : c.runOps (RegOp.remove e :: ops) = ((c.delete_entity e).1).runOps ops := rfl
    obtain ⟨ihwf, ihms⟩ := ih (hwf.delete_entity e)
    refine ⟨hstep ▸ ihwf, ?_⟩
    rw [hstep, ihms]
    have hent : ((c.delete_entity e).1).entities = c.entities.erase e := by
      simp [CanvasReg.delete_entity, hmem]
    have hrem : RegOp.removes (RegOp.remove e :: ops) = e ::ₘ RegOp.removes ops := by
      simp [RegOp.removes]
    have hsub : ((c.entities.erase e : List Nat) : Multiset Nat)
        = (c.entities : Multiset Nat) - {e} := by
      rw [← Multiset.coe_erase, Multiset.sub_singleton]
    have hsle : ({e} : Multiset Nat) ≤ (c.entities : Multiset Nat) := by
      simpa using hmem
    have hadds : RegOp.adds (RegOp.remove e :: ops) = RegOp.adds ops := by
      simp [RegOp.adds]
    rw [hent, hrem, hsub, tsub_add_eq_add_tsub hsle, tsub_tsub, Multiset.singleton_add, hadds]

/-- C5: for every sequence of `add`/`remove` operations on the scene registry
in which each added entity is fresh and each remove targets a current member,
the live entity set after the sequence equals the multiset of added entities
minus the removed entities, and the priorities assigned by `add_entity` are
strictly increasing in insertion order across the still-live entities. -/
theorem registry_sequences_live_set_and_priorities (ops : List RegOp)
    (h : ValidOps CanvasReg.init ops) :
    ((CanvasReg.init.runOps ops).entities : Multiset Nat)
        = RegOp.adds ops - RegOp.removes ops ∧
    ((CanvasReg.init.runOps ops).entities.map
        (CanvasReg.init.runOps ops).priorityOf).Pairwise (· < ·) := by
  obtain ⟨hwf, hms⟩ := runOps_spec h RegWF.init_canvas
  refine ⟨?_, hwf.2.1⟩
  rw [hms]
  simp [CanvasReg.init]

/-- Concrete run of `registry_sequences_live_set_and_priorities`:
add entity 1, add entity 2, remove entity 1. -/
theorem registry_sequences_live_set_and_priorities_witness :
    ((CanvasReg.init.runOps [RegOp.add 1, RegOp.add 2, RegOp.remove 1]).entities : Multiset Nat)
        = RegOp.adds [RegOp.add 1, RegOp.add 2, RegOp.remove 1]
            - RegOp.removes [RegOp.add 1, RegOp.add 2, RegOp.remove 1] ∧
    ((CanvasReg.init.runOps [RegOp.add 1, RegOp.add 2, RegOp.remove 1]).entities.map
        (CanvasReg.init.runOps [RegOp.add 1, RegOp.add 2, RegOp.remove 1]).priorityOf).Pairwise
        (· < ·) :=
  registry_sequences_live_set_and_priorities _
    (ValidOps.add _ 1 _ (by decide)
      (ValidOps.add _ 2 _ (by decide)
        (ValidOps.remove _ 1 _ (by decide) (ValidOps.nil _))))

/-- C6: removing an entity that is not a current member of the scene registry
raises (`delete_entity` reports "Entity ... not found") and leaves the live set
unchanged; removing a current member never raises. -/
theorem delete_entity_error_discipline (c : CanvasReg) (e : Nat) :
    (e ∉ c.entities →
      c.delete_entity e = (c, some s!"Entity {e} not found")) ∧
    (e ∈ c.entities → (c.delete_entity e).2 = none) := by
  constructor
  · intro h
    simp [CanvasReg.delete_entity, h]
  · intro h
    simp [CanvasReg.delete_entity, h]

/-- Concrete run of `delete_entity_error_discipline`: removing entity 7 from the
empty registry errors without mutating it; removing a member raises nothing. -/
theorem delete_entity_error_discipline_witness :
    CanvasReg.init.delete_entity 7 = (CanvasReg.init, some "Entity 7 not found") ∧
    ((CanvasReg.init.add_entity 5).delete_entity 5).2 = none :=
  ⟨(delete_entity_error_discipline CanvasReg.init 7).1 (by decide),
   (delete_entity_error_discipline (CanvasReg.init.add_entity 5) 5).2 (by decide)⟩

/-- The claim that degenerate geometry draws nothing, as stated: a zero-length
line draws nothing for every color and stroke width, and a short polyline draws
nothing. -/
def DegenerateDrawsNothing : Prop :=
  (∀ (color : Color) (width : ℚ) (p : Vertex2d), draw.line p p color width = []) ∧
  ∀ (points : List Vertex2d) (closed : Bool) (color : Color) (width : ℚ),
    points.length < 2 → draw.draw_polyline points closed color width = []

/-- C8 counterexample: with stroke width 1, a zero-length line at the origin
emits a filled square dot (the `rect_filled` cap), not an empty command list. -/
theorem zero_length_line_draws_dot : ¬ DegenerateDrawsNothing := by
  intro h
  have := h.1 (Color.named "black") 1 ⟨0, 0⟩
  rw [draw.line] at this
  simp [draw.kLineWidthScale, draw.doubleEpsilon] at this

/-- C8 (amended): degenerate geometry never errors, but a zero-length line with
positive width draws a single filled square (side `width * kLineWidthScale`) at
the point rather than nothing; with non-positive width it draws nothing, and a
polyline with fewer than 2 points always draws nothing. -/
theorem degenerate_geometry_render (color : Color) (width : ℚ) (p : Vertex2d) :
    (0 < width →
      draw.line p p color width
        = [draw.DrawCmd.rectFilled p (width * draw.kLineWidthScale)
            (width * draw.kLineWidthScale) color]) ∧
    (width ≤ 0 → draw.line p p color width = []) ∧
    ∀ (points : List Vertex2d) (closed : Bool),
      points.length < 2 → draw.draw_polyline points closed color width = [] := by
  refine ⟨?_, ?_, ?_⟩
  · intro h
    have h1 : ¬ width * draw.kLineWidthScale ≤ 0 := by
      rw [draw.kLineWidthScale]
      push_neg
      have h3 : (0 : ℚ) < 3 / 100 := by norm_num
      exact mul_pos h h3
    have h2 : (p.x - p.x) ^ 2 + (p.y - p.y) ^ 2 ≤ draw.doubleEpsilon ^ 2 := by
      rw [draw.doubleEpsilon]
      simp only [sub_self, ne_eq, OfNat.ofNat_ne_zero, not_false_eq_true, zero_pow, add_zero]
      positivity
    simp only [draw.line, h1, if_false, h2, if_true]
  · intro h
    have h1 : width * draw.kLineWidthScale ≤ 0 := by
      rw [draw.kLineWidthScale]
      nlinarith
    simp [draw.line, h1]
  · intro points closed h
    simp [draw.draw_polyline, h]

/-- Concrete run of `degenerate_geometry_render` at width 1 and at the empty
point list. -/
theorem degenerate_geometry_render_witness :
    draw.line ⟨0, 0⟩ ⟨0, 0⟩ (Color.named "black") 1
      = [draw.DrawCmd.rectFilled ⟨0, 0⟩ (1 * draw.kLineWidthScale)
          (1 * draw.kLineWidthScale) (Color.named "black")] ∧
    draw.draw_polyline [] false (Color.named "black") 1 = [] :=
  ⟨(degenerate_geometry_render (Color.named "black") 1 ⟨0, 0⟩).1 (by norm_num),
   (degenerate_geometry_render (Color.named "black") 1 ⟨0, 0⟩).2.2 [] false (by decide)⟩

namespace painting

/-- The effect closure stored in a `MenuItem` (`std::function<void()> action`),
identified by which `Painter` method the lambda in `build_main_menu_items` /
`build_shape_menu_items` calls. -/
inductive MenuAction where
  | cycleShapeType
  | cycleStrokeColor
  | cycleStrokeWidth
  | cycleFillAndRebuild
  | cycleRadiusAndRebuild
deriving DecidableEq, Repr

/-- `painting::MenuItem` (painter.hpp). -/
structure MenuItem where
  label : String
  action : MenuAction
  top_left : Vertex2d := ⟨0, 0⟩
  bottom_right : Vertex2d := ⟨0, 0⟩
deriving DecidableEq, Repr

/-- `MenuItem::contains`: inclusive of the left/right edges; y is inverted so
the top coordinate is numerically the larger one. -/
def MenuItem.contains (item : MenuItem) (point : Vertex2d) : Bool :=
  point.x ≥ item.top_left.x && point.x ≤ item.bottom_right.x &&
    point.y ≤ item.top_left.y && point.y ≥ item.bottom_right.y

/-- `painting::MenuKind`. -/
inductive MenuKind where
  | None
  | Main
  | ShapeSpecific
deriving DecidableEq, Repr

/-- `painting::MenuState` (painter.hpp), with the source's default geometry. -/
structure MenuState where
  kind : MenuKind := MenuKind.None
  visible : Bool := false
  anchor : Vertex2d := ⟨0, 0⟩
  width : ℚ := 4
  item_height : ℚ := 4 / 5
  padding : ℚ := 1 / 5
  items : List MenuItem := []
deriving DecidableEq, Repr

/-- `MenuState::layout`: stacks the item boxes top to bottom, centered
vertically on the anchor, each spanning `width` horizontally. -/
def MenuState.layout (s : MenuState) : MenuState :=
  let overall_height :=
    if s.items.isEmpty then 0
    else (s.items.length : ℚ) * (s.item_height + s.padding) - s.padding
  let left := s.anchor.x - s.width * (1 / 2)
  let first_top := s.anchor.y + overall_height * (1 / 2)
  { s with
    items := s.items.mapIdx fun i item =>
      let top := first_top - (i : ℚ) * (s.item_height + s.padding)
      let bottom := top - s.item_height
      { item with top_left := ⟨left, top⟩, bottom_right := ⟨left + s.width, bottom⟩ } }

end painting

/-- C9: menu item hit-testing is inclusive of the left and right edges with
inverted y; for `top_left = (-2, 1)` and `bottom_right = (2, 0.2)` the point
`(0, 0.5)` is contained and `(0, 1.5)` is not. -/
theorem menu_item_contains_spec :
    (painting.MenuItem.contains
        { label := "", action := painting.MenuAction.cycleShapeType,
          top_left := ⟨-2, 1⟩, bottom_right := ⟨2, 1 / 5⟩ } ⟨0, 1 / 2⟩ = true) ∧
    (painting.MenuItem.contains
        { label := "", action := painting.MenuAction.cycleShapeType,
          top_left := ⟨-2, 1⟩, bottom_right := ⟨2, 1 / 5⟩ } ⟨0, 3 / 2⟩ = false) ∧
    (painting.MenuItem.contains
        { label := "", action := painting.MenuAction.cycleShapeType,
          top_left := ⟨-2, 1⟩, bottom_right := ⟨2, 1 / 5⟩ } ⟨-2, 1 / 2⟩ = true) ∧
    (painting.MenuItem.contains
        { label := "", action := painting.MenuAction.cycleShapeType,
          top_left := ⟨-2, 1⟩, bottom_right := ⟨2, 1 / 5⟩ } ⟨2, 1⟩ = true) := by
  refine ⟨?_, ?_, ?_, ?_⟩ <;> · simp [painting.MenuItem.contains]; norm_num

namespace painting

/-! ## Draft state machines (src/basics/drafts.hpp)

Each draft runs with a live canvas and an injected style provider; the style a
method reads through `current_style()` is passed explicitly.  Preview and
segment entities are owned by the draft (`std::unique_ptr`), so clearing the
lists models their destruction.  The working-priority allocator injected by the
controller does not influence any of the drafted geometry and is not tracked
here. -/

/-- `painting::ShapeType` (drafts.hpp). -/
inductive ShapeType where
  | Line
  | Rectangle
  | Polygon
  | Circle
  | Polyline
deriving DecidableEq, Repr

/-- `painting::DraftStyle` with the source's defaults. -/
structure DraftStyle where
  stroke_color : Color := Color.named "foreground"
  stroke_width : ℚ := 1
  fill_color : Option Color := none
  corner_radius : ℚ := 0
deriving DecidableEq, Repr

/-- `painting::DraftCommit`: the finished entity plus the rebuild closure,
which captures only the geometry and re-derives everything else from the style
it is invoked with. -/
structure DraftCommit where
  entity : EntityConfig
  rebuild : DraftStyle → EntityConfig
  shape_type : ShapeType

/-- `DraftContext::preview_color`: `mix("foreground", "background", 0.8)`. -/
def preview_color : Color := Color.mixc "foreground" "background" (4 / 5)

/-- GLFW key codes the painter distinguishes. -/
inductive Key where
  | escape
  | enter
  | space
  | backspace
  | other (code : Nat)
deriving DecidableEq, Repr

/-- GLFW key/button action. -/
inductive KeyAction where
  | press
  | release
  | rep
deriving DecidableEq, Repr

/-- GLFW mouse buttons. -/
inductive MouseButton where
  | left
  | right
  | other (code : Nat)
deriving DecidableEq, Repr

/-- The mutable state of `painting::PolygonDraft`. -/
structure PolygonDraft where
  points_ : List Vertex2d := []
  segments_ : List Line := []
  preview_segment_ : Option Line := none
deriving DecidableEq, Repr

namespace PolygonDraft

/-- `PolygonDraft::reset`. -/
def reset (_ : PolygonDraft) : PolygonDraft :=
  { points_ := [], segments_ := [], preview_segment_ := none }

/-- `PolygonDraft::add_point`: appends the point, materializes a segment
between the last two points once at least two exist, and drops the preview. -/
def add_point (style : DraftStyle) (s : PolygonDraft) (point : Vertex2d) : PolygonDraft :=
  let points := s.points_ ++ [point]
  let segments :=
    if 2 ≤ points.length then
      s.segments_ ++
        [{ start := points.getD (points.length - 2) ⟨0, 0⟩, end_ := point,
           color := style.stroke_color, stroke := style.stroke_width }]
    else s.segments_
  { points_ := points, segments_ := segments, preview_segment_ := none }

/-- `PolygonDraft::on_mouse_button`: only a left-button press adds a point. -/
def on_mouse_button (style : DraftStyle) (s : PolygonDraft) (button : MouseButton)
    (action : KeyAction) (world : Vertex2d) : PolygonDraft :=
  if button ≠ MouseButton.left ∨ action ≠ KeyAction.press then s
  else add_point style s world

/-- `PolygonDraft::update_preview`. -/
def update_preview (style : DraftStyle) (s : PolygonDraft) (world : Vertex2d) : PolygonDraft :=
  match s.points_.getLast? with
  | none => { s with preview_segment_ := none }
  | some last =>
    match s.preview_segment_ with
    | none =>
      { s with
        preview_segment_ := some ({ start := last, end_ := world, color := preview_color,
                                    stroke := style.stroke_width } : Line) }
    | some seg =>
      { s with preview_segment_ := some ({ seg with start := last, end_ := world } : Line) }

/-- `PolygonDraft::make_commit`: `none` below 3 points, otherwise the closed
polygon entity plus its geometry-capturing rebuild closure. -/
def make_commit (style : DraftStyle) (points : List Vertex2d) : Option DraftCommit :=
  if points.length < 3 then none
  else some
    { entity := EntityConfig.polygon
        { points := points, color := style.stroke_color, fill_color := style.fill_color,
          stroke := style.stroke_width }
      rebuild := fun st => EntityConfig.polygon
        { points := points, color := st.stroke_color, fill_color := st.fill_color,
          stroke := st.stroke_width }
      shape_type := ShapeType.Polygon }

/-- `PolygonDraft::on_key`: on a press of Escape *or* Enter, commit when at
least 3 points are recorded (resetting first), otherwise just reset. -/
def on_key (style : DraftStyle) (s : PolygonDraft) (key : Key) (action : KeyAction) :
    PolygonDraft × Option DraftCommit :=
  if action ≠ KeyAction.press then (s, none)
  else if key = Key.escape ∨ key = Key.enter then
    if 3 ≤ s.points_.length then (s.reset, make_commit style s.points_)
    else (s.reset, none)
  else (s, none)

end PolygonDraft

/-- The mutable state of `painting::PolylineDraft`. -/
structure PolylineDraft where
  points_ : List Vertex2d := []
  segments_ : List Line := []
  preview_segment_ : Option Line := none
deriving DecidableEq, Repr

namespace PolylineDraft

/-- `PolylineDraft::reset`. -/
def reset (_ : PolylineDraft) : PolylineDraft :=
  { points_ := [], segments_ := [], preview_segment_ := none }

/-- `PolylineDraft::add_point`. -/
def add_point (style : DraftStyle) (s : PolylineDraft) (point : Vertex2d) : PolylineDraft :=
  let points := s.points_ ++ [point]
  let segments :=
    if 2 ≤ points.length then
      s.segments_ ++
        [{ start := points.getD (points.length - 2) ⟨0, 0⟩, end_ := point,
           color := style.stroke_color, stroke := style.stroke_width }]
    else s.segments_
  { points_ := points, segments_ := segments, preview_segment_ := none }

/-- `PolylineDraft::on_mouse_button`. -/
def on_mouse_button (style : DraftStyle) (s : PolylineDraft) (button : MouseButton)
    (action : KeyAction) (world : Vertex2d) : PolylineDraft :=
  if button ≠ MouseButton.left ∨ action ≠ KeyAction.press then s
  else add_point style s world

/-- `PolylineDraft::make_commit`: `none` below 2 points, otherwise the open
polyline entity plus its rebuild closure. -/
def make_commit (style : DraftStyle) (points : List Vertex2d) : Option DraftCommit :=
  if points.length < 2 then none
  else some
    { entity := EntityConfig.polyline
        { points := points, color := style.stroke_color, stroke := style.stroke_width }
      rebuild := fun st => EntityConfig.polyline
        { points := points, color := st.stroke_color, stroke := st.stroke_width }
      shape_type := ShapeType.Polyline }

/-- `PolylineDraft::on_key`: a press of Enter or Escape with at least 2 points
commits (resetting first); then Escape additionally resets. -/
def on_key (style : DraftStyle) (s : PolylineDraft) (key : Key) (action : KeyAction) :
    PolylineDraft × Option DraftCommit :=
  if action ≠ KeyAction.press then (s, none)
  else
    let step :=
      if (key = Key.enter ∨ key = Key.escape) ∧ 2 ≤ s.points_.length then
        (s.reset, make_commit style s.points_)
      else (s, none)
    if key = Key.escape then (step.1.reset, step.2) else step

end PolylineDraft

/-- The state of a polygon draft after feeding a sequence of primary-button
presses to a fresh draft. -/
def PolygonDraft.feed_presses (style : DraftStyle) (points : List Vertex2d) : PolygonDraft :=
  points.foldl
    (fun s p => PolygonDraft.on_mouse_button style s MouseButton.left KeyAction.press p) {}

end painting

/-- The Escape-always-cancels claim as stated: in every in-progress state of the
Polygon and Polyline drafts, an Escape press clears the draft state and
produces no Commit. -/
def EscapeAlwaysCancels : Prop :=
  (∀ (style : painting.DraftStyle) (s : painting.PolygonDraft),
    (painting.PolygonDraft.on_key style s painting.Key.escape painting.KeyAction.press).1
        = s.reset ∧
    (painting.PolygonDraft.on_key style s painting.Key.escape painting.KeyAction.press).2
        = none) ∧
  (∀ (style : painting.DraftStyle) (s : painting.PolylineDraft),
    (painting.PolylineDraft.on_key style s painting.Key.escape painting.KeyAction.press).1
        = s.reset ∧
    (painting.PolylineDraft.on_key style s painting.Key.escape painting.KeyAction.press).2
        = none)

/-- C2 counterexample: a polygon draft holding the three points (0,0), (1,0),
(1,1) reacts to an Escape press by *committing* the polygon (Escape is handled
together with Enter as a finish key once 3 points exist), so Escape does not
always produce "no Commit". -/
theorem escape_commits_at_minimum_points : ¬ EscapeAlwaysCancels := by
  intro h
  have h3 := (h.1 {} { points_ := [⟨0, 0⟩, ⟨1, 0⟩, ⟨1, 1⟩] }).2
  simp [painting.PolygonDraft.on_key, painting.PolygonDraft.make_commit] at h3

/-- C2 (amended): an Escape press always clears the in-progress geometry,
segments and preview of the Polygon and Polyline drafts, and it produces no
Commit exactly when the recorded points are below the shape's minimum (3 for
polygon, 2 for polyline); at or above the minimum, Escape instead completes the
shape and produces a Commit. -/
theorem escape_key_discards_below_minimum (style : painting.DraftStyle)
    (sg : painting.PolygonDraft) (sl : painting.PolylineDraft) :
    ((painting.PolygonDraft.on_key style sg painting.Key.escape painting.KeyAction.press).1
        = sg.reset) ∧
    ((painting.PolygonDraft.on_key style sg painting.Key.escape painting.KeyAction.press).2
        = none ↔ sg.points_.length < 3) ∧
    ((painting.PolylineDraft.on_key style sl painting.Key.escape painting.KeyAction.press).1
        = sl.reset) ∧
    ((painting.PolylineDraft.on_key style sl painting.Key.escape painting.KeyAction.press).2
        = none ↔ sl.points_.length < 2) := by
  refine ⟨?_, ?_, ?_, ?_⟩
  · by_cases h : 3 ≤ sg.points_.length <;>
      simp [painting.PolygonDraft.on_key, h, painting.PolygonDraft.reset]
  · rcases Nat.lt_or_ge sg.points_.length 3 with h | h
    · have h' : ¬ 3 ≤ sg.points_.length := by omega
      simp [painting.PolygonDraft.on_key, h', h]
    · have h' : ¬ sg.points_.length < 3 := by omega
      simp [painting.PolygonDraft.on_key, h, painting.PolygonDraft.make_commit, h']
  · by_cases h : 2 ≤ sl.points_.length <;>
      simp [painting.PolylineDraft.on_key, h, painting.PolylineDraft.reset]
  · rcases Nat.lt_or_ge sl.points_.length 2 with h | h
    · have h' : ¬ 2 ≤ sl.points_.length := by omega
      simp [painting.PolylineDraft.on_key, h', h]
    · have h' : ¬ sl.points_.length < 2 := by omega
      simp [painting.PolylineDraft.on_key, h, painting.PolylineDraft.make_commit, h']

/-- C7: pressing the primary button at (0,0), (1,0), (1,1) and then the finish
key yields a Commit holding the 3-point polygon entity (rendered closed: its
draw commands include the segment from (1,1) back to (0,0)) and clears the
draft; with only the first two presses, the finish key yields no Commit and
clears the draft. -/
theorem polygon_draft_finish_key_spec :
    ((painting.PolygonDraft.on_key {}
        (painting.PolygonDraft.feed_presses {} [⟨0, 0⟩, ⟨1, 0⟩, ⟨1, 1⟩])
        painting.Key.enter painting.KeyAction.press).2.map (fun c => c.entity)
      = some (EntityConfig.polygon
          { points := [⟨0, 0⟩, ⟨1, 0⟩, ⟨1, 1⟩], color := Color.named "foreground",
            fill_color := none, stroke := 1 })) ∧
    ((painting.PolygonDraft.on_key {}
        (painting.PolygonDraft.feed_presses {} [⟨0, 0⟩, ⟨1, 0⟩, ⟨1, 1⟩])
        painting.Key.enter painting.KeyAction.press).2.map (fun c => c.shape_type)
      = some painting.ShapeType.Polygon) ∧
    ((painting.PolygonDraft.on_key {}
        (painting.PolygonDraft.feed_presses {} [⟨0, 0⟩, ⟨1, 0⟩, ⟨1, 1⟩])
        painting.Key.enter painting.KeyAction.press).1 = ({} : painting.PolygonDraft)) ∧
    (draw.DrawCmd.lineQuad ⟨1, 1⟩ ⟨0, 0⟩ (1 * draw.kLineWidthScale) (Color.named "foreground")
      ∈ PolygonEntity_draw
          { points := [⟨0, 0⟩, ⟨1, 0⟩, ⟨1, 1⟩], color := Color.named "foreground",
            fill_color := none, stroke := 1 }) ∧
    (painting.PolygonDraft.on_key {}
        (painting.PolygonDraft.feed_presses {} [⟨0, 0⟩, ⟨1, 0⟩])
        painting.Key.enter painting.KeyAction.press
      = (({} : painting.PolygonDraft), none)) := by
  refine ⟨rfl, rfl, rfl, ?_, rfl⟩
  norm_num [PolygonEntity_draw, draw.draw_polyline, draw.line, draw.kLineWidthScale,
    draw.doubleEpsilon, List.flatMap]

/-! ## Painter controller (src/basics/painter.hpp)

The `Painter` owns its working entities through `std::unique_ptr`, so dropping
one from the owning field models its destruction, which deregisters it from the
canvas.  Entity heap identities are modelled by the canvas's monotone id
counter.  Every priority is written into the registry exactly once, when the
owning structure installs the entity (`set_priority` at creation, or the stored
`HistoryEntry::priority` for history slots), so the embedding records each
priority in the owning structure.  Pixel-to-world conversion
(`cursor_to_world`) belongs to the input collaborator boundary; handlers here
receive world coordinates. -/

/-- The scene registry as the painter sees it: monotone entity-id source plus
the live set. -/
structure CanvasM where
  next_id : Nat := 0
  live : List Nat := []
deriving DecidableEq, Repr

/-- `Canvas::draw` + `Entity::Entity(canvas)`: a fresh entity is constructed
and registered. -/
def CanvasM.draw_new (c : CanvasM) : Nat × CanvasM :=
  (c.next_id, { next_id := c.next_id + 1, live := c.live ++ [c.next_id] })

/-- `Entity::~Entity`: deregistration through `Canvas::delete_entity`. -/
def CanvasM.destroy (c : CanvasM) (id : Nat) : CanvasM :=
  { c with live := c.live.erase id }

namespace painting

/-- `Painter::stroke_palette`. -/
def stroke_palette : List String :=
  ["black", "red", "green", "blue", "yellow", "magenta", "cyan", "bright_red",
   "bright_green", "bright_yellow", "bright_blue", "bright_magenta", "bright_cyan"]

/-- `Painter::stroke_width_options` = {0.5, 1.0, 2.0, 3.5, 5.0}. -/
def stroke_width_options : List ℚ := [1 / 2, 1, 2, 7 / 2, 5]

/-- `Painter::fill_palette`. -/
def fill_palette : List (Option String) :=
  [none, some "black", some "red", some "green", some "blue", some "yellow",
   some "magenta", some "cyan", some "bright_red", some "bright_green",
   some "bright_yellow", some "bright_blue", some "bright_magenta", some "bright_cyan"]

/-- `Painter::radius_options` = {0.0, 0.1, 0.3, 0.5, 1.0, 1.5}. -/
def radius_options : List ℚ := [0, 1 / 10, 3 / 10, 1 / 2, 1, 3 / 2]

/-- `Painter::kCommittedPriorityStep`. -/
def kCommittedPriorityStep : Int := 10

/-- `Painter::kWorkingPriorityBase`. -/
def kWorkingPriorityBase : Int := 1000000

/-- The literal priority `ensure_menu_layer` assigns to the menu overlay. -/
def kMenuLayerPriority : Int := 200000

/-- `Painter::ShapeType` (the controller's own two-shape enum, distinct from
the drafts' `painting::ShapeType`). -/
inductive Painter.ShapeType where
  | Polygon
  | Rectangle
deriving DecidableEq, Repr

/-- `Painter::State`. -/
inductive Painter.State where
  | Idle
  | DrawPolygon
  | DrawRectangle
deriving DecidableEq, Repr

/-- `Painter::RectangleDraft`. -/
structure Painter.RectangleDraft where
  first : Vertex2d
  second : Vertex2d
deriving DecidableEq, Repr

/-- `Painter::HistoryEntry`: the committed entity (id and payload) and its
assigned priority. -/
structure HistoryEntry where
  id : Nat
  entity : EntityConfig
  priority : Int
deriving DecidableEq, Repr

/-- A live `LineEntity` owned by the painter (a segment or preview segment),
with the working priority `set_priority` gave it. -/
structure WorkingLine where
  id : Nat
  priority : Int
  config : Line
deriving DecidableEq, Repr

/-- The live preview `RectangleEntity` owned by the painter. -/
structure WorkingRect where
  id : Nat
  priority : Int
  config : Rectangle
deriving DecidableEq, Repr

/-- The persistent `MenuOverlayEntity` (`menu_layer`). -/
structure MenuLayer where
  id : Nat
  priority : Int
deriving DecidableEq, Repr

/-- The `Painter` state (painter.hpp), with the member initializers of the
source as defaults. -/
structure Painter where
  canvas : CanvasM := {}
  state : Painter.State := Painter.State.Idle
  active_shape : Painter.ShapeType := Painter.ShapeType.Polygon
  last_committed_shape : Painter.ShapeType := Painter.ShapeType.Polygon
  polygon_points : List Vertex2d := []
  committed_polygon : List Vertex2d := []
  committed_rectangle : Option Painter.RectangleDraft := none
  segments : List WorkingLine := []
  preview_segment : Option WorkingLine := none
  preview_rectangle : Option WorkingRect := none
  rect_first_corner : Option Vertex2d := none
  rect_second_corner : Option Vertex2d := none
  menu_state : MenuState := {}
  menu_layer : Option MenuLayer := none
  last_cursor_world : Vertex2d := ⟨0, 0⟩
  stroke_color_index : Nat := 0
  stroke_width_index : Nat := 1
  fill_color_index : Nat := 0
  corner_radius_index : Nat := 0
  drawn_entities : List HistoryEntry := []
  next_priority : Int := 10000
  working_priority_counter : Int := 0
deriving DecidableEq, Repr

namespace Painter

/-- `Painter::current_stroke_color`. -/
def current_stroke_color (s : Painter) : Color :=
  Color.named (stroke_palette.getD s.stroke_color_index "")

/-- `Painter::current_stroke_width`. -/
def current_stroke_width (s : Painter) : ℚ :=
  stroke_width_options.getD s.stroke_width_index 0

/-- `Painter::current_fill_color`. -/
def current_fill_color (s : Painter) : Option Color :=
  (fill_palette.getD s.fill_color_index none).map Color.named

/-- `Painter::current_corner_radius`. -/
def current_corner_radius (s : Painter) : ℚ :=
  radius_options.getD s.corner_radius_index 0

/-- `Painter::canvas_center` with the default `CanvasParameters` projection
(left -5, right 5, bottom -5, top 5). -/
def canvas_center (_ : Painter) : Vertex2d :=
  ⟨(-5 + 5) / 2, (5 + -5) / 2⟩

/-- `Painter::menu_anchor`. -/
def menu_anchor (s : Painter) : Vertex2d := s.canvas_center

/-- `Painter::allocate_committed_priority`. -/
def allocate_committed_priority (s : Painter) : Int × Painter :=
  (s.next_priority, { s with next_priority := s.next_priority + kCommittedPriorityStep })

/-- `Painter::allocate_working_priority`. -/
def allocate_working_priority (s : Painter) : Int × Painter :=
  (kWorkingPriorityBase + s.working_priority_counter,
   { s with working_priority_counter := s.working_priority_counter + 1 })

/-- `Painter::push_committed_entity` on a non-null entity (the caller,
`rebuild_committed_shape`, already filtered out the null case). -/
def push_committed_entity (s : Painter) (id : Nat) (entity : EntityConfig) : Painter :=
  let (priority, s') := s.allocate_committed_priority
  { s' with drawn_entities :=
      s'.drawn_entities ++ [{ id := id, entity := entity, priority := priority }] }

/-- `Painter::replace_top_entity` on a non-null entity: with empty history the
incoming entity is dropped (its `unique_ptr` destructs, deregistering it);
otherwise the top entry's old entity is destroyed and the new one takes its
priority slot. -/
def replace_top_entity (s : Painter) (id : Nat) (entity : EntityConfig) : Painter :=
  match s.drawn_entities.getLast? with
  | none => { s with canvas := s.canvas.destroy id }
  | some last =>
    { s with
      canvas := s.canvas.destroy last.id
      drawn_entities := s.drawn_entities.dropLast ++
        [{ id := id, entity := entity, priority := last.priority }] }

/-- `Painter::close_menu`. -/
def close_menu (s : Painter) : Painter :=
  { s with menu_state :=
      { s.menu_state with visible := false, items := [], kind := MenuKind.None } }

/-- `Painter::undo_last_shape`: no-op (with a diagnostic) on empty history,
otherwise pops the last entry (destroying its entity), forgets the committed
geometry, resets the last-committed kind and closes the menu. -/
def undo_last_shape (s : Painter) : Painter :=
  match s.drawn_entities.getLast? with
  | none => s
  | some last =>
    close_menu
      { s with
        drawn_entities := s.drawn_entities.dropLast
        canvas := s.canvas.destroy last.id
        committed_polygon := []
        committed_rectangle := none
        last_committed_shape := Painter.ShapeType.Polygon }

/-- `Painter::ensure_menu_layer`: creates the overlay entity once and pins it
at priority 200000. -/
def ensure_menu_layer (s : Painter) : Painter :=
  match s.menu_layer with
  | some _ => s
  | none =>
    let (id, c') := s.canvas.draw_new
    { s with canvas := c', menu_layer := some { id := id, priority := kMenuLayerPriority } }

/-- The label `magic_enum::enum_name` produces for the controller's shapes. -/
def shape_name : Painter.ShapeType → String
  | Painter.ShapeType.Polygon => "Polygon"
  | Painter.ShapeType.Rectangle => "Rectangle"

/-- `Painter::build_main_menu_items` (labels abbreviate the `fmt` float
formatting). -/
def build_main_menu_items (s : Painter) : List MenuItem :=
  [{ label := "Shape: " ++ shape_name s.active_shape, action := MenuAction.cycleShapeType },
   { label := "Stroke color: " ++ stroke_palette.getD s.stroke_color_index "",
     action := MenuAction.cycleStrokeColor },
   { label := "Stroke width: " ++ toString (stroke_width_options.getD s.stroke_width_index 0),
     action := MenuAction.cycleStrokeWidth }]

/-- `Painter::build_shape_menu_items`. -/
def build_shape_menu_items (s : Painter) : List MenuItem :=
  let fill_label :=
    match fill_palette.getD s.fill_color_index none with
    | some n => "Fill: " ++ n
    | none => "Fill: none"
  { label := fill_label, action := MenuAction.cycleFillAndRebuild } ::
    (if s.last_committed_shape = Painter.ShapeType.Rectangle then
      [{ label := "Corner radius: " ++ toString (radius_options.getD s.corner_radius_index 0),
         action := MenuAction.cycleRadiusAndRebuild }]
    else [])

/-- `Painter::open_main_menu`. -/
def open_main_menu (s : Painter) : Painter :=
  let s := s.ensure_menu_layer
  let ms := { s.menu_state with
              kind := MenuKind.Main, anchor := s.menu_anchor, visible := true,
              items := s.build_main_menu_items }
  { s with menu_state := ms.layout }

/-- `Painter::open_shape_menu`. -/
def open_shape_menu (s : Painter) : Painter :=
  let s := s.ensure_menu_layer
  let ms := { s.menu_state with
              kind := MenuKind.ShapeSpecific, anchor := s.menu_anchor, visible := true,
              items := s.build_shape_menu_items }
  { s with menu_state := ms.layout }

/-- `Painter::refresh_menu_items`. -/
def refresh_menu_items (s : Painter) : Painter :=
  if ¬ s.menu_state.visible then s
  else
    let items :=
      match s.menu_state.kind with
      | MenuKind.Main => s.build_main_menu_items
      | MenuKind.ShapeSpecific => s.build_shape_menu_items
      | MenuKind.None => s.menu_state.items
    let ms := { s.menu_state with items := items }
    { s with menu_state := ms.layout }

/-- `Painter::build_committed_entity`: rebuilds the committed geometry under
the current style cursor, registering a fresh entity; `none` when no committed
geometry is stored (the null-pointer result). -/
def build_committed_entity (s : Painter) : Option (Nat × EntityConfig) × Painter :=
  if s.last_committed_shape = Painter.ShapeType.Polygon then
    if s.committed_polygon.length < 3 then (none, s)
    else
      let cfg := EntityConfig.polygon
        { points := s.committed_polygon, color := s.current_stroke_color,
          fill_color := s.current_fill_color, stroke := s.current_stroke_width }
      let (id, c') := s.canvas.draw_new
      (some (id, cfg), { s with canvas := c' })
  else
    match s.committed_rectangle with
    | some cr =>
      let center : Vertex2d := ⟨(cr.first.x + cr.second.x) / 2, (cr.first.y + cr.second.y) / 2⟩
      let cfg := EntityConfig.rectangle
        { center := center, width := |cr.second.x - cr.first.x|,
          height := |cr.second.y - cr.first.y|,
          corner_radius := some s.current_corner_radius, color := s.current_stroke_color,
          fill_color := s.current_fill_color, stroke := s.current_stroke_width }
      let (id, c') := s.canvas.draw_new
      (some (id, cfg), { s with canvas := c' })
    | none => (none, s)

/-- `Painter::rebuild_committed_shape`. -/
def rebuild_committed_shape (s : Painter) (replace_existing : Bool) : Painter :=
  if replace_existing && s.drawn_entities.isEmpty then s
  else
    let (ent, s') := s.build_committed_entity
    match ent with
    | none => s'
    | some (id, e) =>
      if replace_existing then s'.replace_top_entity id e else s'.push_committed_entity id e

/-- `Painter::cycle_shape_type`: toggles the active shape and clears every
in-progress draft artifact; it does not touch the history. -/
def cycle_shape_type (s : Painter) : Painter :=
  let s := { s with
             active_shape :=
               (if s.active_shape = Painter.ShapeType.Polygon then Painter.ShapeType.Rectangle
                else Painter.ShapeType.Polygon),
             state := Painter.State.Idle, polygon_points := [],
             rect_first_corner := none, rect_second_corner := none }
  let s := { s with
             canvas := s.segments.foldl (fun (c : CanvasM) (w : WorkingLine) => c.destroy w.id) s.canvas, segments := [] }
  let s :=
    match s.preview_segment with
    | none => s
    | some pe => { s with canvas := s.canvas.destroy pe.id, preview_segment := none }
  match s.preview_rectangle with
  | none => s
  | some pr => { s with canvas := s.canvas.destroy pr.id, preview_rectangle := none }

/-- `Painter::cycle_stroke_color`. -/
def cycle_stroke_color (s : Painter) : Painter :=
  rebuild_committed_shape
    { s with stroke_color_index := (s.stroke_color_index + 1) % stroke_palette.length } true

/-- `Painter::cycle_stroke_width`. -/
def cycle_stroke_width (s : Painter) : Painter :=
  rebuild_committed_shape
    { s with stroke_width_index := (s.stroke_width_index + 1) % stroke_width_options.length } true

/-- `Painter::cycle_fill_color`. -/
def cycle_fill_color (s : Painter) : Painter :=
  { s with fill_color_index := (s.fill_color_index + 1) % fill_palette.length }

/-- `Painter::cycle_corner_radius`. -/
def cycle_corner_radius (s : Painter) : Painter :=
  { s with corner_radius_index := (s.corner_radius_index + 1) % radius_options.length }

/-- The painter method each stored menu-item closure calls. -/
def run_menu_action (s : Painter) : MenuAction → Painter
  | MenuAction.cycleShapeType => s.cycle_shape_type
  | MenuAction.cycleStrokeColor => s.cycle_stroke_color
  | MenuAction.cycleStrokeWidth => s.cycle_stroke_width
  | MenuAction.cycleFillAndRebuild => (s.cycle_fill_color).rebuild_committed_shape true
  | MenuAction.cycleRadiusAndRebuild => (s.cycle_corner_radius).rebuild_committed_shape true

/-- `Painter::handle_menu_click`: runs the first item containing the click and
refreshes the menu; reports whether anything was hit. -/
def handle_menu_click (s : Painter) (world : Vertex2d) : Painter × Bool :=
  if ¬ s.menu_state.visible then (s, false)
  else
    match s.menu_state.items.find? (fun it => it.contains world) with
    | some it => ((s.run_menu_action it.action).refresh_menu_items, true)
    | none => (s, false)

/-- `Painter::add_segment`: draws a committed-looking stroke-styled segment
entity at the next working priority. -/
def add_segment (s : Painter) (a b : Vertex2d) : Painter :=
  let cfg : Line :=
    { start := a, end_ := b, color := s.current_stroke_color, stroke := s.current_stroke_width }
  let (id, c') := s.canvas.draw_new
  let s := { s with canvas := c' }
  let (wp, s) := s.allocate_working_priority
  { s with segments := s.segments ++ [{ id := id, priority := wp, config := cfg }] }

/-- `Painter::clear_polygon_preview` (`preview_segment.reset()`). -/
def clear_polygon_preview (s : Painter) : Painter :=
  match s.preview_segment with
  | none => s
  | some pe => { s with canvas := s.canvas.destroy pe.id, preview_segment := none }

/-- `preview_rectangle.reset()`. -/
def clear_preview_rectangle (s : Painter) : Painter :=
  match s.preview_rectangle with
  | none => s
  | some pr => { s with canvas := s.canvas.destroy pr.id, preview_rectangle := none }

/-- `Painter::clear_segments`. -/
def clear_segments (s : Painter) : Painter :=
  { s with canvas := s.segments.foldl (fun (c : CanvasM) (w : WorkingLine) => c.destroy w.id) s.canvas, segments := [] }

/-- `Painter::add_polygon_point`. -/
def add_polygon_point (s : Painter) (point : Vertex2d) : Painter :=
  let s :=
    if s.state = Painter.State.Idle then
      { s with polygon_points := [], state := Painter.State.DrawPolygon }
    else s
  let s := { s with polygon_points := s.polygon_points ++ [point] }
  let s :=
    if 2 ≤ s.polygon_points.length then
      s.add_segment (s.polygon_points.getD (s.polygon_points.length - 2) ⟨0, 0⟩) point
    else s
  s.clear_polygon_preview

/-- `Painter::update_polygon_preview`. -/
def update_polygon_preview (s : Painter) (current : Vertex2d) : Painter :=
  if s.state ≠ Painter.State.DrawPolygon ∨ s.polygon_points.isEmpty then
    s.clear_polygon_preview
  else
    match s.preview_segment with
    | none =>
      let cfg : Line :=
        { start := s.polygon_points.getLastD ⟨0, 0⟩, end_ := current,
          color := preview_color, stroke := s.current_stroke_width }
      let (id, c') := s.canvas.draw_new
      let s := { s with canvas := c' }
      let (wp, s) := s.allocate_working_priority
      { s with preview_segment := some { id := id, priority := wp, config := cfg } }
    | some pe =>
      let cfg := { pe.config with
                   start := s.polygon_points.getLastD ⟨0, 0⟩, end_ := current }
      { s with preview_segment := some { pe with config := cfg } }

/-- `Painter::cancel_polygon`. -/
def cancel_polygon (s : Painter) : Painter :=
  let s := { s with polygon_points := [], state := Painter.State.Idle }
  (s.clear_polygon_preview).clear_segments

/-- `Painter::finalize_polygon`: below 3 points warn and cancel; otherwise add
the closing segment, remember the committed geometry, build and push the
committed entity, open the shape menu, and clear the draft. -/
def finalize_polygon (s : Painter) : Painter :=
  if s.state ≠ Painter.State.DrawPolygon then s
  else if s.polygon_points.length < 3 then s.cancel_polygon
  else
    let s := s.add_segment (s.polygon_points.getLastD ⟨0, 0⟩) (s.polygon_points.headD ⟨0, 0⟩)
    let s := { s with
               committed_polygon := s.polygon_points,
               last_committed_shape := Painter.ShapeType.Polygon }
    let s := s.rebuild_committed_shape false
    let s := s.open_shape_menu
    s.cancel_polygon

/-- `Painter::update_rectangle_preview`. -/
def update_rectangle_preview (s : Painter) : Painter :=
  if s.state ≠ Painter.State.DrawRectangle ∨ s.rect_first_corner.isNone then
    s.clear_preview_rectangle
  else
    let first := s.rect_first_corner.getD ⟨0, 0⟩
    let second := s.rect_second_corner.getD s.last_cursor_world
    let center : Vertex2d := ⟨(first.x + second.x) / 2, (first.y + second.y) / 2⟩
    let width := |second.x - first.x|
    let height := |second.y - first.y|
    match s.preview_rectangle with
    | none =>
      let cfg : Rectangle :=
        { center := center, width := width, height := height, corner_radius := some 0,
          color := preview_color, fill_color := none, stroke := 1 }
      let (id, c') := s.canvas.draw_new
      let s := { s with canvas := c' }
      let (wp, s) := s.allocate_working_priority
      { s with preview_rectangle := some { id := id, priority := wp, config := cfg } }
    | some pr =>
      let cfg := { pr.config with center := center, width := width, height := height }
      { s with preview_rectangle := some { pr with config := cfg } }

/-- `Painter::handle_rectangle_click`. -/
def handle_rectangle_click (s : Painter) (point : Vertex2d) : Painter :=
  let s :=
    if s.state = Painter.State.Idle then
      ({ s with state := Painter.State.DrawRectangle, rect_first_corner := none,
                rect_second_corner := none }).clear_preview_rectangle
    else s
  if s.rect_first_corner.isNone then { s with rect_first_corner := some point }
  else
    let s := { s with rect_second_corner := some point }
    s.update_rectangle_preview

/-- `Painter::cancel_rectangle`. -/
def cancel_rectangle (s : Painter) : Painter :=
  let s := { s with rect_first_corner := none, rect_second_corner := none }
  let s := s.clear_preview_rectangle
  { s with state := Painter.State.Idle }

/-- `Painter::finalize_rectangle`. -/
def finalize_rectangle (s : Painter) : Painter :=
  if s.state ≠ Painter.State.DrawRectangle then s
  else if s.rect_first_corner.isNone ∨ s.rect_second_corner.isNone then s.cancel_rectangle
  else
    let s := { s with
               committed_rectangle :=
                 some { first := s.rect_first_corner.getD ⟨0, 0⟩,
                        second := s.rect_second_corner.getD ⟨0, 0⟩ },
               last_committed_shape := Painter.ShapeType.Rectangle }
    let s := s.rebuild_committed_shape false
    let s := s.open_shape_menu
    s.cancel_rectangle

/-- `Painter::on_key`. -/
def on_key (s : Painter) (key : Key) (action : KeyAction) : Painter :=
  if action ≠ KeyAction.press then s
  else if key = Key.space ∧ s.state = Painter.State.Idle then s.open_main_menu
  else if key = Key.escape then
    if s.menu_state.visible then s.close_menu
    else if s.state = Painter.State.DrawPolygon then s.finalize_polygon
    else if s.state = Painter.State.DrawRectangle then s.finalize_rectangle
    else s
  else if key = Key.backspace then s.undo_last_shape
  else s

/-- `Painter::on_mouse_button` (the cursor has already been converted to the
world coordinate `world`). -/
def on_mouse_button (s : Painter) (button : MouseButton) (action : KeyAction) (_mods : Nat)
    (world : Vertex2d) : Painter :=
  if button ≠ MouseButton.left ∨ action ≠ KeyAction.press then s
  else
    let s := { s with last_cursor_world := world }
    if s.menu_state.visible then
      let (s', hit) := s.handle_menu_click world
      if hit then s' else s'.close_menu
    else if s.active_shape = Painter.ShapeType.Polygon then s.add_polygon_point world
    else s.handle_rectangle_click world

/-- `Painter::on_mouse_move` (world coordinate). -/
def on_mouse_move (s : Painter) (world : Vertex2d) : Painter :=
  let s := { s with last_cursor_world := world }
  if s.state = Painter.State.DrawPolygon then s.update_polygon_preview world
  else if s.state = Painter.State.DrawRectangle then s.update_rectangle_preview
  else s

end Painter

/-- One externally triggered painter transition: a key event, a mouse-button
event, or a mouse move. -/
inductive PainterStep : Painter → Painter → Prop where
  | key (s : Painter) (k : Key) (a : KeyAction) : PainterStep s (s.on_key k a)
  | mouse_button (s : Painter) (b : MouseButton) (a : KeyAction) (mods : Nat) (w : Vertex2d) :
      PainterStep s (s.on_mouse_button b a mods w)
  | mouse_move (s : Painter) (w : Vertex2d) : PainterStep s (s.on_mouse_move w)

/-- Painter states reachable from the freshly constructed painter. -/
def PainterReachable (s : Painter) : Prop :=
  Relation.ReflTransGen PainterStep {} s

/-- The commit path for a finished entity: register it with the canvas
(`Canvas::draw` inside `build_committed_entity`) and push it onto the history
(`push_committed_entity`). -/
def Painter.commit_shape (s : Painter) (e : EntityConfig) : Painter :=
  let (id, c') := s.canvas.draw_new
  Painter.push_committed_entity { s with canvas := c' } id e

/-- Canvas well-formedness: every live id was handed out by the id counter. -/
def CanvasWF (c : CanvasM) : Prop :=
  ∀ i ∈ c.live, i < c.next_id

end painting

/-- C4: undo is a left-inverse of commit — committing a shape and immediately
undoing restores the history exactly (same length, entities and priorities) and
removes the shape's entity from the registry; undoing with empty history is a
complete no-op. -/
theorem undo_left_inverse_of_commit (s : painting.Painter) (e : EntityConfig)
    (hwf : painting.CanvasWF s.canvas) :
    ((s.commit_shape e).undo_last_shape).drawn_entities = s.drawn_entities ∧
    ((s.commit_shape e).undo_last_shape).canvas.live = s.canvas.live ∧
    s.canvas.next_id ∉ ((s.commit_shape e).undo_last_shape).canvas.live ∧
    (s.drawn_entities = [] → s.undo_last_shape = s) := by
  have hfresh : s.canvas.next_id ∉ s.canvas.live := by
    intro hmem
    exact absurd (hwf _ hmem) (lt_irrefl _)
  have herase : (s.canvas.live ++ [s.canvas.next_id]).erase s.canvas.next_id = s.canvas.live := by
    rw [List.erase_append_right _ hfresh]
    simp
  refine ⟨?_, ?_, ?_, ?_⟩
  · simp [painting.Painter.commit_shape, painting.Painter.push_committed_entity,
      painting.Painter.allocate_committed_priority, painting.Painter.undo_last_shape,
      painting.Painter.close_menu, CanvasM.draw_new]
  · simp [painting.Painter.commit_shape, painting.Painter.push_committed_entity,
      painting.Painter.allocate_committed_priority, painting.Painter.undo_last_shape,
      painting.Painter.close_menu, CanvasM.draw_new, CanvasM.destroy, herase]
  · simp only [painting.Painter.commit_shape, painting.Painter.push_committed_entity,
      painting.Painter.allocate_committed_priority, painting.Painter.undo_last_shape,
      painting.Painter.close_menu, CanvasM.draw_new, CanvasM.destroy]
    simp [herase, hfresh]
  · intro h
    simp [painting.Painter.undo_last_shape, h]

/-- Concrete run of `undo_left_inverse_of_commit` on the freshly constructed
painter. -/
theorem undo_left_inverse_of_commit_witness :
    ((painting.Painter.commit_shape {} EntityConfig.menuOverlay).undo_last_shape).drawn_entities
        = ({} : painting.Painter).drawn_entities ∧
    ((painting.Painter.commit_shape {} EntityConfig.menuOverlay).undo_last_shape).canvas.live
        = ({} : painting.Painter).canvas.live ∧
    ({} : painting.Painter).canvas.next_id
        ∉ ((painting.Painter.commit_shape {} EntityConfig.menuOverlay).undo_last_shape).canvas.live ∧
    (({} : painting.Painter).drawn_entities = [] →
      painting.Painter.undo_last_shape {} = {}) :=
  undo_left_inverse_of_commit {} EntityConfig.menuOverlay (by intro i hi; simp at hi)

/-- C10: after undo pops a history entry, the painter has forgotten its
committed geometry (polygon points cleared, rectangle corners cleared), so a
subsequent stroke-color or stroke-width cycle performs no rebuild: the history
and the registry are left untouched by the cycle. -/
theorem undo_disarms_style_rebuild (s : painting.Painter) (h : s.drawn_entities ≠ []) :
    ((s.undo_last_shape).committed_polygon = []) ∧
    ((s.undo_last_shape).committed_rectangle = none) ∧
    (((s.undo_last_shape).cycle_stroke_color).drawn_entities
        = (s.undo_last_shape).drawn_entities) ∧
    (((s.undo_last_shape).cycle_stroke_color).canvas = (s.undo_last_shape).canvas) ∧
    (((s.undo_last_shape).cycle_stroke_width).drawn_entities
        = (s.undo_last_shape).drawn_entities) ∧
    (((s.undo_last_shape).cycle_stroke_width).canvas = (s.undo_last_shape).canvas) := by
  rcases hl : s.drawn_entities.getLast? with _ | last
  · rw [List.getLast?_eq_none_iff] at hl
    exact absurd hl h
  · have hu : s.undo_last_shape = painting.Painter.close_menu
        { s with
          drawn_entities := s.drawn_entities.dropLast
          canvas := s.canvas.destroy last.id
          committed_polygon := []
          committed_rectangle := none
          last_committed_shape := painting.Painter.ShapeType.Polygon } := by
      rw [painting.Painter.undo_last_shape, hl]
    rw [hu]
    by_cases hd : s.drawn_entities.dropLast.isEmpty <;>
      simp [painting.Painter.close_menu, painting.Painter.cycle_stroke_color,
        painting.Painter.cycle_stroke_width, painting.Painter.rebuild_committed_shape,
        painting.Painter.build_committed_entity, hd]

/-- Concrete run of `undo_disarms_style_rebuild` on a painter with one
committed entry. -/
theorem undo_disarms_style_rebuild_witness :
    ((painting.Painter.undo_last_shape
        { drawn_entities := [{ id := 0, entity := EntityConfig.menuOverlay,
                               priority := 10000 }] }).committed_polygon = []) ∧
    ((painting.Painter.undo_last_shape
        { drawn_entities := [{ id := 0, entity := EntityConfig.menuOverlay,
                               priority := 10000 }] }).committed_rectangle = none) ∧
    (((painting.Painter.undo_last_shape
        { drawn_entities := [{ id := 0, entity := EntityConfig.menuOverlay,
                               priority := 10000 }] }).cycle_stroke_color).drawn_entities
        = (painting.Painter.undo_last_shape
            { drawn_entities := [{ id := 0, entity := EntityConfig.menuOverlay,
                                   priority := 10000 }] }).drawn_entities) ∧
    (((painting.Painter.undo_last_shape
        { drawn_entities := [{ id := 0, entity := EntityConfig.menuOverlay,
                               priority := 10000 }] }).cycle_stroke_color).canvas
        = (painting.Painter.undo_last_shape
            { drawn_entities := [{ id := 0, entity := EntityConfig.menuOverlay,
                                   priority := 10000 }] }).canvas) ∧
    (((painting.Painter.undo_last_shape
        { drawn_entities := [{ id := 0, entity := EntityConfig.menuOverlay,
                               priority := 10000 }] }).cycle_stroke_width).drawn_entities
        = (painting.Painter.undo_last_shape
            { drawn_entities := [{ id := 0, entity := EntityConfig.menuOverlay,
                                   priority := 10000 }] }).drawn_entities) ∧
    (((painting.Painter.undo_last_shape
        { drawn_entities := [{ id := 0, entity := EntityConfig.menuOverlay,
                               priority := 10000 }] }).cycle_stroke_width).canvas
        = (painting.Painter.undo_last_shape
            { drawn_entities := [{ id := 0, entity := EntityConfig.menuOverlay,
                                   priority := 10000 }] }).canvas) :=
  undo_disarms_style_rebuild
    { drawn_entities := [{ id := 0, entity := EntityConfig.menuOverlay, priority := 10000 }] }
    (by simp)

namespace painting

/-- The entity the specification describes for a rebuild: the stored committed
geometry (polygon points, or rectangle corners turned into center and extents)
under the painter's current style cursor; nothing when no geometry is stored.
Stated from the spec's words, for comparison with `build_committed_entity`. -/
def stored_geometry_entity (s : Painter) : Option EntityConfig :=
  match s.last_committed_shape with
  | Painter.ShapeType.Polygon =>
    if 3 ≤ s.committed_polygon.length then
      some (EntityConfig.polygon
        { points := s.committed_polygon, color := s.current_stroke_color,
          fill_color := s.current_fill_color, stroke := s.current_stroke_width })
    else none
  | Painter.ShapeType.Rectangle =>
    s.committed_rectangle.map fun cr =>
      EntityConfig.rectangle
        { center := ⟨(cr.first.x + cr.second.x) / 2, (cr.first.y + cr.second.y) / 2⟩,
          width := |cr.second.x - cr.first.x|, height := |cr.second.y - cr.first.y|,
          corner_radius := some s.current_corner_radius, color := s.current_stroke_color,
          fill_color := s.current_fill_color, stroke := s.current_stroke_width }

/-- Stored geometry matching the last committed kind is available for a
rebuild. -/
def GeometryStored (s : Painter) : Prop :=
  (s.last_committed_shape = Painter.ShapeType.Polygon ∧ 3 ≤ s.committed_polygon.length) ∨
  (s.last_committed_shape = Painter.ShapeType.Rectangle ∧ s.committed_rectangle.isSome)

/-- `rebuild_committed_shape true` with non-empty history and stored geometry
replaces exactly the top slot: a freshly registered entity with the stored
geometry and current style takes over the top priority, everything else stays. -/
theorem rebuild_committed_shape_replace_spec (s : Painter) (hne : s.drawn_entities ≠ [])
    (hgeom : GeometryStored s) :
    ((s.rebuild_committed_shape true).drawn_entities.map HistoryEntry.priority
        = s.drawn_entities.map HistoryEntry.priority) ∧
    ((s.rebuild_committed_shape true).drawn_entities.dropLast = s.drawn_entities.dropLast) ∧
    ((s.rebuild_committed_shape true).drawn_entities.getLast?.map HistoryEntry.id
        = some s.canvas.next_id) ∧
    ((s.rebuild_committed_shape true).drawn_entities.getLast?.map HistoryEntry.entity
        = stored_geometry_entity s) := by
  rcases hl : s.drawn_entities.getLast? with _ | last
  · rw [List.getLast?_eq_none_iff] at hl
    exact absurd hl hne
  obtain ⟨front, hfront⟩ := List.getLast?_eq_some_iff.mp hl
  have hbuild : ∃ cfg, s.build_committed_entity
      = (some (s.canvas.next_id, cfg), { s with canvas := (s.canvas.draw_new).2 })
      ∧ stored_geometry_entity s = some cfg := by
    rcases hgeom with ⟨hk, hlen⟩ | ⟨hk, hcr⟩
    · have h3 : ¬ s.committed_polygon.length < 3 := by omega
      refine ⟨EntityConfig.polygon
          { points := s.committed_polygon, color := s.current_stroke_color,
            fill_color := s.current_fill_color, stroke := s.current_stroke_width }, ?_, ?_⟩ <;>
        simp [Painter.build_committed_entity, stored_geometry_entity, hk, h3, CanvasM.draw_new]
    · rcases hcr' : s.committed_rectangle with _ | cr
      · rw [hcr'] at hcr
        simp at hcr
      · have hk2 : s.last_committed_shape ≠ Painter.ShapeType.Polygon := by
          rw [hk]
          intro hcontra
          cases hcontra
        refine ⟨EntityConfig.rectangle
            { center := ⟨(cr.first.x + cr.second.x) / 2, (cr.first.y + cr.second.y) / 2⟩,
              width := |cr.second.x - cr.first.x|, height := |cr.second.y - cr.first.y|,
              corner_radius := some s.current_corner_radius, color := s.current_stroke_color,
              fill_color := s.current_fill_color, stroke := s.current_stroke_width },
            ?_, ?_⟩ <;>
          simp [Painter.build_committed_entity, stored_geometry_entity, hk, hk2, hcr',
            CanvasM.draw_new]

  obtain ⟨cfg, hbe, hsge⟩ := hbuild
  have hrw : s.rebuild_committed_shape true
      = Painter.replace_top_entity { s with canvas := (s.canvas.draw_new).2 }
          s.canvas.next_id cfg := by
    rw [Painter.rebuild_committed_shape]
    have hie : s.drawn_entities.isEmpty = false := by
      simp [List.isEmpty_iff, hne]
    simp only [hie, Bool.and_false, Bool.false_eq_true, if_neg, hbe]
    simp
  rw [hrw, Painter.replace_top_entity]
  simp only [hfront]
  refine ⟨?_, ?_, ?_, ?_⟩
  · simp [List.getLast?_concat]
  · simp [List.getLast?_concat, List.dropLast_concat]
  · simp [List.getLast?_concat]
  · simp [List.getLast?_concat, hsge]

/-- The shape-kind-cycle part of the rebuild claim as stated: whenever a
committed entry exists, `cycle_shape_type` installs a freshly drawn entity in
the top history slot (its id is the canvas's next id). -/
def CycleShapeTypeRebuildsTop : Prop :=
  ∀ s : Painter, s.drawn_entities ≠ [] →
    ((s.cycle_shape_type).drawn_entities.getLast?.map HistoryEntry.id
      = some s.canvas.next_id)

end painting

/-- C3 counterexample: on a painter with one committed entry (entity id 0, next
canvas id 1), cycling the shape kind leaves the history slot holding entity 0 —
`cycle_shape_type` performs no rebuild at all. -/
theorem cycle_shape_type_does_not_rebuild : ¬ painting.CycleShapeTypeRebuildsTop := by
  intro h
  have := h
    { canvas := { next_id := 1, live := [0] },
      drawn_entities := [{ id := 0, entity := EntityConfig.menuOverlay, priority := 10000 }] }
    (by simp)
  simp [painting.Painter.cycle_shape_type] at this

/-- C3 (amended): with at least one committed entry and stored committed
geometry, cycling the stroke color or the stroke width rebuilds the most recent
entry in place — a fresh entity built from the stored geometry and the
post-cycle style takes the same priority slot, and every other entry is
unchanged; cycling the shape kind leaves the history entirely unchanged (no
rebuild). -/
theorem style_cycles_rebuild_top_in_place (s : painting.Painter)
    (hne : s.drawn_entities ≠ []) (hgeom : painting.GeometryStored s) :
    (((s.cycle_stroke_color).drawn_entities.map painting.HistoryEntry.priority
        = s.drawn_entities.map painting.HistoryEntry.priority) ∧
     ((s.cycle_stroke_color).drawn_entities.dropLast = s.drawn_entities.dropLast) ∧
     ((s.cycle_stroke_color).drawn_entities.getLast?.map painting.HistoryEntry.id
        = some s.canvas.next_id) ∧
     ((s.cycle_stroke_color).drawn_entities.getLast?.map painting.HistoryEntry.entity
        = painting.stored_geometry_entity
            { s with stroke_color_index :=
                (s.stroke_color_index + 1) % painting.stroke_palette.length })) ∧
    (((s.cycle_stroke_width).drawn_entities.map painting.HistoryEntry.priority
        = s.drawn_entities.map painting.HistoryEntry.priority) ∧
     ((s.cycle_stroke_width).drawn_entities.dropLast = s.drawn_entities.dropLast) ∧
     ((s.cycle_stroke_width).drawn_entities.getLast?.map painting.HistoryEntry.id
        = some s.canvas.next_id) ∧
     ((s.cycle_stroke_width).drawn_entities.getLast?.map painting.HistoryEntry.entity
        = painting.stored_geometry_entity
            { s with stroke_width_index :=
                (s.stroke_width_index + 1) % painting.stroke_width_options.length })) ∧
    ((s.cycle_shape_type).drawn_entities = s.drawn_entities) := by
  have hgc : painting.GeometryStored
      { s with stroke_color_index :=
          (s.stroke_color_index + 1) % painting.stroke_palette.length } := hgeom
  have hgw : painting.GeometryStored
      { s with stroke_width_index :=
          (s.stroke_width_index + 1) % painting.stroke_width_options.length } := hgeom
  refine ⟨?_, ?_, ?_⟩
  · exact painting.rebuild_committed_shape_replace_spec _ hne hgc
  · exact painting.rebuild_committed_shape_replace_spec _ hne hgw
  · rw [painting.Painter.cycle_shape_type]
    rcases s.preview_segment with _ | pe <;> rcases s.preview_rectangle with _ | pr <;> simp

/-- Concrete run of `style_cycles_rebuild_top_in_place` on a painter with one
committed triangle whose geometry is stored. -/
theorem style_cycles_rebuild_top_in_place_witness :
    (((painting.Painter.cycle_stroke_color
        { canvas := { next_id := 1, live := [0] },
          committed_polygon := [⟨0, 0⟩, ⟨1, 0⟩, ⟨1, 1⟩],
          drawn_entities := [{ id := 0, entity := EntityConfig.menuOverlay,
                               priority := 10000 }] }).drawn_entities.map
        painting.HistoryEntry.priority = [10000]) ∧
     ((painting.Painter.cycle_stroke_color
        { canvas := { next_id := 1, live := [0] },
          committed_polygon := [⟨0, 0⟩, ⟨1, 0⟩, ⟨1, 1⟩],
          drawn_entities := [{ id := 0, entity := EntityConfig.menuOverlay,
                               priority := 10000 }] }).drawn_entities.getLast?.map
        painting.HistoryEntry.id = some 1)) := by
  have h := style_cycles_rebuild_top_in_place
    { canvas := { next_id := 1, live := [0] },
      committed_polygon := [⟨0, 0⟩, ⟨1, 0⟩, ⟨1, 1⟩],
      drawn_entities := [{ id := 0, entity := EntityConfig.menuOverlay, priority := 10000 }] }
    (by simp) (Or.inl ⟨rfl, by simp⟩)
  exact ⟨h.1.1, h.1.2.2.1⟩

namespace painting

/-- The priorities of all live working/preview entities the painter owns:
polygon segments, the polygon preview segment, and the rectangle preview. -/
def workingPriorities (s : Painter) : List Int :=
  s.segments.map WorkingLine.priority ++ s.preview_segment.toList.map WorkingLine.priority ++
    s.preview_rectangle.toList.map WorkingRect.priority

/-- The committed priorities in commit order. -/
def committedPriorities (s : Painter) : List Int :=
  s.drawn_entities.map HistoryEntry.priority

/-- The priority-band invariant the painter maintains: the working counter is
non-negative; every working priority sits in
`[kWorkingPriorityBase, kWorkingPriorityBase + counter)`; the menu overlay (if
created) sits at the fixed `kMenuLayerPriority`; and committed priorities are
at least 10000, strictly increasing in commit order, and strictly below the
next committed priority to be allocated. -/
def PainterInv (s : Painter) : Prop :=
  0 ≤ s.working_priority_counter ∧
  (∀ p ∈ workingPriorities s,
    kWorkingPriorityBase ≤ p ∧ p < kWorkingPriorityBase + s.working_priority_counter) ∧
  (∀ ml, s.menu_layer = some ml → ml.priority = kMenuLayerPriority) ∧
  10000 ≤ s.next_priority ∧
  (committedPriorities s).Pairwise (· < ·) ∧
  (∀ en ∈ s.drawn_entities,
    10000 ≤ en.priority ∧ en.priority + kCommittedPriorityStep ≤ s.next_priority)

theorem PainterInv.init_painter : PainterInv {} := by
  refine ⟨by simp, ?_, ?_, by simp, ?_, ?_⟩ <;>
    simp [workingPriorities, committedPriorities]

/-- Transfer of the invariant along an operation that keeps the counters, the
history and the menu layer, and only drops working entities. -/
theorem PainterInv.congr_fields {s : Painter} (hinv : PainterInv s) {s' : Painter}
    (hc : s'.working_priority_counter = s.working_priority_counter)
    (hw : ∀ p ∈ workingPriorities s', p ∈ workingPriorities s)
    (hm : ∀ ml, s'.menu_layer = some ml → s.menu_layer = some ml)
    (hn : s'.next_priority = s.next_priority)
    (hd : s'.drawn_entities = s.drawn_entities) : PainterInv s' := by
  obtain ⟨h1, h2, h3, h4, h5, h6⟩ := hinv
  refine ⟨?_, ?_, ?_, ?_, ?_, ?_⟩
  · rw [hc]; exact h1
  · intro p hp
    rw [hc]
    exact h2 p (hw p hp)
  · intro ml hml
    exact h3 ml (hm ml hml)
  · rw [hn]; exact h4
  · unfold committedPriorities
    rw [hd]
    exact h5
  · intro en hen
    rw [hn]
    rw [hd] at hen
    exact h6 en hen

/-- Transfer of the invariant along an operation that allocates one working
priority (the fresh priority is `base + counter` and the counter advances). -/
theorem PainterInv.alloc_working {s : Painter} (hinv : PainterInv s) {s' : Painter}
    (hc : s'.working_priority_counter = s.working_priority_counter + 1)
    (hw : ∀ p ∈ workingPriorities s',
      p ∈ workingPriorities s ∨ p = kWorkingPriorityBase + s.working_priority_counter)
    (hm : ∀ ml, s'.menu_layer = some ml → s.menu_layer = some ml)
    (hn : s'.next_priority = s.next_priority)
    (hd : s'.drawn_entities = s.drawn_entities) : PainterInv s' := by
  obtain ⟨h1, h2, h3, h4, h5, h6⟩ := hinv
  refine ⟨by omega, ?_, fun ml hml => h3 ml (hm ml hml), by omega, ?_, ?_⟩
  · intro p hp
    rw [hc]
    rcases hw p hp with hp' | hp'
    · have := h2 p hp'
      omega
    · omega
  · unfold committedPriorities
    rw [hd]
    exact h5
  · intro en hen
    rw [hn]
    rw [hd] at hen
    exact h6 en hen

theorem inv_close_menu {s : Painter} (h : PainterInv s) : PainterInv s.close_menu :=
  h.congr_fields rfl (fun _ hp => hp) (fun _ hml => hml) rfl rfl

theorem inv_ensure_menu_layer {s : Painter} (h : PainterInv s) :
    PainterInv s.ensure_menu_layer := by
  obtain ⟨h1, h2, h3, h4, h5, h6⟩ := h
  rcases hml : s.menu_layer with _ | ml
  · simp only [Painter.ensure_menu_layer, hml]
    refine ⟨h1, h2, ?_, h4, h5, h6⟩
    intro ml' hml'
    simp only [Option.some_inj] at hml'
    rw [← hml']
  · simp only [Painter.ensure_menu_layer, hml]
    exact ⟨h1, h2, h3, h4, h5, h6⟩

theorem inv_open_main_menu {s : Painter} (h : PainterInv s) : PainterInv s.open_main_menu := by
  rw [Painter.open_main_menu]
  exact (inv_ensure_menu_layer h).congr_fields rfl (fun _ hp => hp) (fun _ hml => hml) rfl rfl

theorem inv_open_shape_menu {s : Painter} (h : PainterInv s) : PainterInv s.open_shape_menu := by
  rw [Painter.open_shape_menu]
  exact (inv_ensure_menu_layer h).congr_fields rfl (fun _ hp => hp) (fun _ hml => hml) rfl rfl

theorem inv_refresh_menu_items {s : Painter} (h : PainterInv s) :
    PainterInv s.refresh_menu_items := by
  rw [Painter.refresh_menu_items]
  split
  · exact h
  · exact h.congr_fields rfl (fun _ hp => hp) (fun _ hml => hml) rfl rfl

theorem inv_clear_polygon_preview {s : Painter} (h : PainterInv s) :
    PainterInv s.clear_polygon_preview := by
  rcases hpe : s.preview_segment with _ | pe
  · simpa [Painter.clear_polygon_preview, hpe] using h
  · simp only [Painter.clear_polygon_preview, hpe]
    refine h.congr_fields rfl ?_ (fun _ hml => hml) rfl rfl
    intro p hp
    simp only [workingPriorities, List.mem_append] at hp ⊢
    rcases hp with (hp | hp) | hp
    · exact Or.inl (Or.inl hp)
    · simp at hp
    · exact Or.inr hp

theorem inv_clear_preview_rectangle {s : Painter} (h : PainterInv s) :
    PainterInv s.clear_preview_rectangle := by
  rcases hpr : s.preview_rectangle with _ | pr
  · simpa [Painter.clear_preview_rectangle, hpr] using h
  · simp only [Painter.clear_preview_rectangle, hpr]
    refine h.congr_fields rfl ?_ (fun _ hml => hml) rfl rfl
    intro p hp
    simp only [workingPriorities, List.mem_append] at hp ⊢
    rcases hp with (hp | hp) | hp
    · exact Or.inl (Or.inl hp)
    · exact Or.inl (Or.inr hp)
    · simp at hp

theorem inv_clear_segments {s : Painter} (h : PainterInv s) : PainterInv s.clear_segments := by
  rw [Painter.clear_segments]
  refine h.congr_fields rfl ?_ (fun _ hml => hml) rfl rfl
  intro p hp
  simp only [workingPriorities, List.mem_append] at hp ⊢
  rcases hp with (hp | hp) | hp
  · simp at hp
  · exact Or.inl (Or.inr hp)
  · exact Or.inr hp

/-- `add_segment` in explicit record form. -/
theorem add_segment_eq (s : Painter) (a b : Vertex2d) :
    s.add_segment a b =
      { s with
        canvas := { next_id := s.canvas.next_id + 1, live := s.canvas.live ++ [s.canvas.next_id] }
        working_priority_counter := s.working_priority_counter + 1
        segments := s.segments ++
          [{ id := s.canvas.next_id,
             priority := kWorkingPriorityBase + s.working_priority_counter,
             config := { start := a, end_ := b, color := s.current_stroke_color,
                         stroke := s.current_stroke_width } }] } := rfl

theorem inv_add_segment {s : Painter} (a b : Vertex2d) (h : PainterInv s) :
    PainterInv (s.add_segment a b) := by
  rw [add_segment_eq]
  refine h.alloc_working rfl ?_ (fun _ hml => hml) rfl rfl
  intro p hp
  simp only [workingPriorities, List.mem_append, List.map_append] at hp ⊢
  rcases hp with ((hp | hp) | hp) | hp
  · exact Or.inl (Or.inl (Or.inl hp))
  · simp at hp
    exact Or.inr hp
  · exact Or.inl (Or.inl (Or.inr hp))
  · exact Or.inl (Or.inr hp)

theorem inv_update_polygon_preview {s : Painter} (current : Vertex2d) (h : PainterInv s) :
    PainterInv (s.update_polygon_preview current) := by
  rw [Painter.update_polygon_preview]
  split
  · exact inv_clear_polygon_preview h
  · rcases hpe : s.preview_segment with _ | pe
    · simp only [hpe]
      refine h.alloc_working rfl ?_ (fun _ hml => hml) rfl rfl
      intro p hp
      simp only [workingPriorities, List.mem_append, hpe] at hp ⊢
      rcases hp with (hp | hp) | hp
      · exact Or.inl (Or.inl (Or.inl hp))
      · simp at hp
        exact Or.inr hp
      · exact Or.inl (Or.inr hp)
    · simp only [hpe]
      refine h.congr_fields rfl ?_ (fun _ hml => hml) rfl rfl
      intro p hp
      simp only [workingPriorities, List.mem_append, hpe] at hp ⊢
      rcases hp with (hp | hp) | hp
      · exact Or.inl (Or.inl hp)
      · simp at hp
        exact Or.inl (Or.inr (by simp [hp]))
      · exact Or.inr hp

theorem inv_update_rectangle_preview {s : Painter} (h : PainterInv s) :
    PainterInv s.update_rectangle_preview := by
  rw [Painter.update_rectangle_preview]
  split
  · exact inv_clear_preview_rectangle h
  · rcases hpr : s.preview_rectangle with _ | pr
    · simp only [hpr]
      refine h.alloc_working rfl ?_ (fun _ hml => hml) rfl rfl
      intro p hp
      simp only [workingPriorities, List.mem_append, hpr] at hp ⊢
      rcases hp with (hp | hp) | hp
      · exact Or.inl (Or.inl (Or.inl hp))
      · exact Or.inl (Or.inl (Or.inr hp))
      · simp at hp
        exact Or.inr hp
    · simp only [hpr]
      refine h.congr_fields rfl ?_ (fun _ hml => hml) rfl rfl
      intro p hp
      simp only [workingPriorities, List.mem_append, hpr] at hp ⊢
      rcases hp with (hp | hp) | hp
      · exact Or.inl (Or.inl hp)
      · exact Or.inl (Or.inr hp)
      · simp at hp
        exact Or.inr (by simp [hp])

/-- `push_committed_entity` in explicit record form. -/
theorem push_committed_entity_eq (s : Painter) (id : Nat) (e : EntityConfig) :
    s.push_committed_entity id e =
      { s with
        next_priority := s.next_priority + kCommittedPriorityStep
        drawn_entities := s.drawn_entities ++
          [{ id := id, entity := e, priority := s.next_priority }] } := rfl

theorem inv_push_committed_entity {s : Painter} (id : Nat) (e : EntityConfig)
    (h : PainterInv s) : PainterInv (s.push_committed_entity id e) := by
  obtain ⟨h1, h2, h3, h4, h5, h6⟩ := h
  have hstep : kCommittedPriorityStep = 10 := rfl
  rw [push_committed_entity_eq]
  refine ⟨h1, h2, h3, ?_, ?_, ?_⟩
  · show 10000 ≤ s.next_priority + kCommittedPriorityStep
    rw [hstep]
    omega
  · show ((s.drawn_entities ++
      [({ id := id, entity := e, priority := s.next_priority } : HistoryEntry)]).map
        HistoryEntry.priority).Pairwise (· < ·)
    rw [List.map_append]
    refine List.pairwise_append.2 ⟨h5, by simp, ?_⟩
    intro x hx y hy
    simp only [List.map_cons, List.map_nil, List.mem_singleton] at hy
    subst hy
    obtain ⟨en, hen, rfl⟩ := List.mem_map.1 hx
    have := (h6 en hen).2
    rw [hstep] at this
    show en.priority < s.next_priority
    omega
  · intro en hen
    show 10000 ≤ en.priority ∧
      en.priority + kCommittedPriorityStep ≤ s.next_priority + kCommittedPriorityStep
    have hen' : en ∈ s.drawn_entities ++
        [({ id := id, entity := e, priority := s.next_priority } : HistoryEntry)] := hen
    rw [hstep]
    rcases List.mem_append.1 hen' with hh | hh
    · have := h6 en hh
      rw [hstep] at this
      omega
    · simp only [List.mem_singleton] at hh
      subst hh
      exact ⟨h4, le_refl _⟩

theorem inv_replace_top_entity {s : Painter} (id : Nat) (e : EntityConfig)
    (h : PainterInv s) : PainterInv (s.replace_top_entity id e) := by
  rw [Painter.replace_top_entity]
  rcases hl : s.drawn_entities.getLast? with _ | last
  · exact h.congr_fields rfl (fun _ hp => hp) (fun _ hml => hml) rfl rfl
  · obtain ⟨front, hfront⟩ := List.getLast?_eq_some_iff.mp hl
    obtain ⟨h1, h2, h3, h4, h5, h6⟩ := h
    refine ⟨h1, h2, h3, h4, ?_, ?_⟩
    · show ((s.drawn_entities.dropLast ++
        [({ id := id, entity := e, priority := last.priority } : HistoryEntry)]).map
          HistoryEntry.priority).Pairwise (· < ·)
      unfold committedPriorities at h5
      rw [hfront, List.dropLast_concat]
      rw [hfront, List.map_append] at h5
      simpa using h5
    · intro en hen
      simp only at hen
      rw [hfront, List.dropLast_concat] at hen
      rcases List.mem_append.1 hen with hen' | hen'
      · exact h6 en (by rw [hfront]; exact List.mem_append.2 (Or.inl hen'))
      · simp only [List.mem_singleton] at hen'
        subst hen'
        have := h6 last (by rw [hfront]; exact List.mem_append.2 (Or.inr (by simp)))
        simpa using this

theorem inv_build_committed_entity {s : Painter} (h : PainterInv s) :
    PainterInv (s.build_committed_entity).2 := by
  by_cases hk : s.last_committed_shape = Painter.ShapeType.Polygon
  · by_cases h3 : s.committed_polygon.length < 3
    · have heq : (s.build_committed_entity).2 = s := by
        simp [Painter.build_committed_entity, hk, h3]
      rw [heq]
      exact h
    · have heq : (s.build_committed_entity).2 = { s with canvas := (s.canvas.draw_new).2 } := by
        simp [Painter.build_committed_entity, hk, h3]
      rw [heq]
      exact h.congr_fields rfl (fun _ hp => hp) (fun _ hml => hml) rfl rfl
  · rcases hcr : s.committed_rectangle with _ | cr
    · have heq : (s.build_committed_entity).2 = s := by
        simp [Painter.build_committed_entity, hk, hcr]
      rw [heq]
      exact h
    · have heq : (s.build_committed_entity).2 = { s with canvas := (s.canvas.draw_new).2 } := by
        simp [Painter.build_committed_entity, hk, hcr]
      rw [heq]
      exact h.congr_fields rfl (fun _ hp => hp) (fun _ hml => hml) rfl rfl

theorem inv_rebuild_committed_shape {s : Painter} (replace_existing : Bool)
    (h : PainterInv s) : PainterInv (s.rebuild_committed_shape replace_existing) := by
  rw [Painter.rebuild_committed_shape]
  split
  · exact h
  · have hs' : PainterInv (s.build_committed_entity).2 := inv_build_committed_entity h
    rcases hbe : s.build_committed_entity with ⟨ent, s'⟩
    rw [hbe] at hs'
    rcases ent with _ | ⟨id, e⟩
    · simp only [hbe]
      exact hs'
    · simp only [hbe]
      cases replace_existing
      · simpa using inv_push_committed_entity id e hs'
      · simpa using inv_replace_top_entity id e hs'

theorem inv_cycle_stroke_color {s : Painter} (h : PainterInv s) :
    PainterInv s.cycle_stroke_color :=
  inv_rebuild_committed_shape true
    (h.congr_fields rfl (fun _ hp => hp) (fun _ hml => hml) rfl rfl)

theorem inv_cycle_stroke_width {s : Painter} (h : PainterInv s) :
    PainterInv s.cycle_stroke_width :=
  inv_rebuild_committed_shape true
    (h.congr_fields rfl (fun _ hp => hp) (fun _ hml => hml) rfl rfl)

theorem inv_cycle_fill_color {s : Painter} (h : PainterInv s) :
    PainterInv s.cycle_fill_color :=
  h.congr_fields rfl (fun _ hp => hp) (fun _ hml => hml) rfl rfl

theorem inv_cycle_corner_radius {s : Painter} (h : PainterInv s) :
    PainterInv s.cycle_corner_radius :=
  h.congr_fields rfl (fun _ hp => hp) (fun _ hml => hml) rfl rfl

theorem inv_cycle_shape_type {s : Painter} (h : PainterInv s) :
    PainterInv s.cycle_shape_type := by
  rw [Painter.cycle_shape_type]
  rcases s.preview_segment with _ | pe <;> rcases s.preview_rectangle with _ | pr <;>
  · refine h.congr_fields rfl ?_ (fun _ hml => hml) rfl rfl
    intro p hp
    simp [workingPriorities] at hp

theorem inv_undo_last_shape {s : Painter} (h : PainterInv s) :
    PainterInv s.undo_last_shape := by
  rw [Painter.undo_last_shape]
  rcases hl : s.drawn_entities.getLast? with _ | last
  · exact h
  · apply inv_close_menu
    obtain ⟨h1, h2, h3, h4, h5, h6⟩ := h
    refine ⟨h1, h2, h3, h4, ?_, ?_⟩
    · unfold committedPriorities at h5 ⊢
      exact h5.sublist ((List.dropLast_sublist _).map _)
    · intro en hen
      exact h6 en ((List.dropLast_sublist _).subset hen)

theorem inv_cancel_polygon {s : Painter} (h : PainterInv s) : PainterInv s.cancel_polygon := by
  rw [Painter.cancel_polygon]
  exact inv_clear_segments (inv_clear_polygon_preview
    (h.congr_fields rfl (fun _ hp => hp) (fun _ hml => hml) rfl rfl))

theorem inv_add_polygon_point {s : Painter} (point : Vertex2d) (h : PainterInv s) :
    PainterInv (s.add_polygon_point point) := by
  rw [Painter.add_polygon_point]
  apply inv_clear_polygon_preview
  have hbase : ∀ t : Painter, PainterInv t →
      PainterInv (if 2 ≤ t.polygon_points.length then
        t.add_segment (t.polygon_points.getD (t.polygon_points.length - 2) ⟨0, 0⟩) point
      else t) := by
    intro t ht
    split
    · exact inv_add_segment _ _ ht
    · exact ht
  refine hbase _ ?_
  split
  · exact h.congr_fields rfl (fun _ hp => hp) (fun _ hml => hml) rfl rfl
  · exact h.congr_fields rfl (fun _ hp => hp) (fun _ hml => hml) rfl rfl

theorem inv_finalize_polygon {s : Painter} (h : PainterInv s) :
    PainterInv s.finalize_polygon := by
  rw [Painter.finalize_polygon]
  split
  · exact h
  split
  · exact inv_cancel_polygon h
  · exact inv_cancel_polygon (inv_open_shape_menu (inv_rebuild_committed_shape false
      ((inv_add_segment _ _ h).congr_fields rfl (fun _ hp => hp) (fun _ hml => hml) rfl rfl)))

theorem inv_cancel_rectangle {s : Painter} (h : PainterInv s) :
    PainterInv s.cancel_rectangle := by
  rw [Painter.cancel_rectangle]
  have h1 : PainterInv
      ({ s with rect_first_corner := none, rect_second_corner := none } : Painter) :=
    h.congr_fields rfl (fun _ hp => hp) (fun _ hml => hml) rfl rfl
  have h2 := inv_clear_preview_rectangle h1
  exact h2.congr_fields rfl (fun _ hp => hp) (fun _ hml => hml) rfl rfl

theorem inv_handle_rectangle_click {s : Painter} (point : Vertex2d) (h : PainterInv s) :
    PainterInv (s.handle_rectangle_click point) := by
  rw [Painter.handle_rectangle_click]
  have h2 : ∀ t : Painter, PainterInv t →
      PainterInv (if t.rect_first_corner.isNone then { t with rect_first_corner := some point }
        else ({ t with rect_second_corner := some point }).update_rectangle_preview) := by
    intro t ht
    split
    · exact ht.congr_fields rfl (fun _ hp => hp) (fun _ hml => hml) rfl rfl
    · exact inv_update_rectangle_preview
        (ht.congr_fields rfl (fun _ hp => hp) (fun _ hml => hml) rfl rfl)
  refine h2 _ ?_
  split
  · exact inv_clear_preview_rectangle
      (h.congr_fields rfl (fun _ hp => hp) (fun _ hml => hml) rfl rfl)
  · exact h

theorem inv_finalize_rectangle {s : Painter} (h : PainterInv s) :
    PainterInv s.finalize_rectangle := by
  rw [Painter.finalize_rectangle]
  split
  · exact h
  split
  · exact inv_cancel_rectangle h
  · exact inv_cancel_rectangle (inv_open_shape_menu (inv_rebuild_committed_shape false
      (h.congr_fields rfl (fun _ hp => hp) (fun _ hml => hml) rfl rfl)))

theorem inv_run_menu_action {s : Painter} (a : MenuAction) (h : PainterInv s) :
    PainterInv (s.run_menu_action a) := by
  cases a
  · exact inv_cycle_shape_type h
  · exact inv_cycle_stroke_color h
  · exact inv_cycle_stroke_width h
  · exact inv_rebuild_committed_shape true (inv_cycle_fill_color h)
  · exact inv_rebuild_committed_shape true (inv_cycle_corner_radius h)

theorem inv_handle_menu_click {s : Painter} (world : Vertex2d) (h : PainterInv s) :
    PainterInv (s.handle_menu_click world).1 := by
  rw [Painter.handle_menu_click]
  split
  · exact h
  · split
    · exact inv_refresh_menu_items (inv_run_menu_action _ h)
    · exact h

theorem inv_on_key {s : Painter} (k : Key) (a : KeyAction) (h : PainterInv s) :
    PainterInv (s.on_key k a) := by
  rw [Painter.on_key]
  split
  · exact h
  split
  · exact inv_open_main_menu h
  split
  · split
    · exact inv_close_menu h
    split
    · exact inv_finalize_polygon h
    split
    · exact inv_finalize_rectangle h
    · exact h
  split
  · exact inv_undo_last_shape h
  · exact h

theorem inv_on_mouse_button {s : Painter} (b : MouseButton) (a : KeyAction) (mods : Nat)
    (w : Vertex2d) (h : PainterInv s) : PainterInv (s.on_mouse_button b a mods w) := by
  rw [Painter.on_mouse_button]
  split
  · exact h
  · dsimp only
    have h1 : PainterInv ({ s with last_cursor_world := w } : Painter) :=
      h.congr_fields rfl (fun _ hp => hp) (fun _ hml => hml) rfl rfl
    split
    · rcases hmc : ({ s with last_cursor_world := w } : Painter).handle_menu_click w
        with ⟨s', hit⟩
      have h2 : PainterInv s' := by
        have h3 := inv_handle_menu_click w h1
        rwa [hmc] at h3
      simp only [hmc]
      split
      · exact h2
      · exact inv_close_menu h2
    · split
      · exact inv_add_polygon_point w h1
      · exact inv_handle_rectangle_click w h1

theorem inv_on_mouse_move {s : Painter} (w : Vertex2d) (h : PainterInv s) :
    PainterInv (s.on_mouse_move w) := by
  rw [Painter.on_mouse_move]
  have h1 : PainterInv ({ s with last_cursor_world := w } : Painter) :=
    h.congr_fields rfl (fun _ hp => hp) (fun _ hml => hml) rfl rfl
  split
  · exact inv_update_polygon_preview w h1
  split
  · exact inv_update_rectangle_preview h1
  · exact h1

/-- Every reachable painter state satisfies the priority-band invariant. -/
theorem reachable_painter_inv {s : Painter} (h : PainterReachable s) : PainterInv s := by
  induction h with
  | refl => exact PainterInv.init_painter
  | tail _ hstep ih =>
    cases hstep with
    | key k a => exact inv_on_key k a ih
    | mouse_button b a mods w => exact inv_on_mouse_button b a mods w ih
    | mouse_move w => exact inv_on_mouse_move w ih

end painting

/-- The paint-order band claim as stated: in every reachable painter state,
every working/preview priority is strictly above every committed priority and
strictly below the menu overlay's priority, and committed priorities are in
commit order. -/
def PriorityBandsAsSpecified : Prop :=
  ∀ s : painting.Painter, painting.PainterReachable s →
    (∀ p ∈ painting.workingPriorities s,
      (∀ q ∈ painting.committedPriorities s, q < p) ∧
      (∀ ml, s.menu_layer = some ml → p < ml.priority)) ∧
    (painting.committedPriorities s).Pairwise (· < ·)

/-- C1 counterexample: open the main menu with Space (the overlay entity is
pinned at priority 200000), close it with Escape, press at (0,0) to start a
polygon, and move the pointer: the preview segment receives working priority
1000000, which is *above* the menu overlay's 200000, not below it. -/
theorem working_band_above_menu_layer : ¬ PriorityBandsAsSpecified := by
  intro h
  have r1 : painting.PainterReachable (painting.Painter.on_key {} painting.Key.space
      painting.KeyAction.press) :=
    Relation.ReflTransGen.tail Relation.ReflTransGen.refl
      (painting.PainterStep.key {} painting.Key.space painting.KeyAction.press)
  have r2 : painting.PainterReachable ((painting.Painter.on_key {} painting.Key.space
      painting.KeyAction.press).on_key painting.Key.escape painting.KeyAction.press) :=
    Relation.ReflTransGen.tail r1 (painting.PainterStep.key _ _ _)
  have r3 : painting.PainterReachable (((painting.Painter.on_key {} painting.Key.space
      painting.KeyAction.press).on_key painting.Key.escape
        painting.KeyAction.press).on_mouse_button painting.MouseButton.left
        painting.KeyAction.press 0 ⟨0, 0⟩) :=
    Relation.ReflTransGen.tail r2 (painting.PainterStep.mouse_button _ _ _ _ _)
  have r4 : painting.PainterReachable ((((painting.Painter.on_key {} painting.Key.space
      painting.KeyAction.press).on_key painting.Key.escape
        painting.KeyAction.press).on_mouse_button painting.MouseButton.left
        painting.KeyAction.press 0 ⟨0, 0⟩).on_mouse_move ⟨1, 1⟩) :=
    Relation.ReflTransGen.tail r3 (painting.PainterStep.mouse_move _ _)
  have hwp : painting.workingPriorities ((((painting.Painter.on_key {} painting.Key.space
      painting.KeyAction.press).on_key painting.Key.escape
        painting.KeyAction.press).on_mouse_button painting.MouseButton.left
        painting.KeyAction.press 0 ⟨0, 0⟩).on_mouse_move ⟨1, 1⟩) = [1000000] := rfl
  have hml : ((((painting.Painter.on_key {} painting.Key.space
      painting.KeyAction.press).on_key painting.Key.escape
        painting.KeyAction.press).on_mouse_button painting.MouseButton.left
        painting.KeyAction.press 0 ⟨0, 0⟩).on_mouse_move ⟨1, 1⟩).menu_layer
      = some { id := 0, priority := 200000 } := rfl
  have hc := ((h _ r4).1 1000000 (by rw [hwp]; simp)).2 _ hml
  simp at hc

/-- C1 (amended): in every reachable painter state, committed priorities are
strictly increasing in commit order; every working/preview priority is at least
the working base 1,000,000 and strictly *greater* than the menu overlay's
priority 200,000 (working entities paint above the menu, not below it); and as
long as the committed-priority counter has not yet grown past the respective
band base, every committed priority is strictly below every working priority
and below the menu overlay's priority. -/
theorem priority_bands_reachable (s : painting.Painter)
    (h : painting.PainterReachable s) :
    (painting.committedPriorities s).Pairwise (· < ·) ∧
    (∀ p ∈ painting.workingPriorities s, painting.kWorkingPriorityBase ≤ p) ∧
    (∀ p ∈ painting.workingPriorities s, ∀ ml, s.menu_layer = some ml → ml.priority < p) ∧
    (s.next_priority ≤ painting.kWorkingPriorityBase →
      ∀ q ∈ painting.committedPriorities s, ∀ p ∈ painting.workingPriorities s, q < p) ∧
    (s.next_priority ≤ painting.kMenuLayerPriority →
      ∀ q ∈ painting.committedPriorities s, ∀ ml, s.menu_layer = some ml →
        q < ml.priority) := by
  obtain ⟨h1, h2, h3, h4, h5, h6⟩ := painting.reachable_painter_inv h
  have hb : painting.kWorkingPriorityBase = 1000000 := rfl
  have hk : painting.kMenuLayerPriority = 200000 := rfl
  have hs : painting.kCommittedPriorityStep = 10 := rfl
  refine ⟨h5, ?_, ?_, ?_, ?_⟩
  · intro p hp
    exact (h2 p hp).1
  · intro p hp ml hml
    have hpb := (h2 p hp).1
    rw [h3 ml hml]
    rw [hb] at hpb
    rw [hk]
    omega
  · intro hnb q hq p hp
    obtain ⟨en, hen, rfl⟩ := List.mem_map.1 hq
    have hqb := (h6 en hen).2
    have hpb := (h2 p hp).1
    rw [hs] at hqb
    rw [hb] at hpb hnb
    omega
  · intro hnb q hq ml hml
    obtain ⟨en, hen, rfl⟩ := List.mem_map.1 hq
    have hqb := (h6 en hen).2
    rw [h3 ml hml, hk]
    rw [hs] at hqb
    rw [hk] at hnb
    omega

/-- Concrete run of `priority_bands_reachable` on the freshly constructed
painter (reachable by the empty step sequence). -/
theorem priority_bands_reachable_witness :
    (painting.committedPriorities {}).Pairwise (· < ·) ∧
    (∀ p ∈ painting.workingPriorities {}, painting.kWorkingPriorityBase ≤ p) ∧
    (∀ p ∈ painting.workingPriorities {},
      ∀ ml, (({} : painting.Painter)).menu_layer = some ml → ml.priority < p) ∧
    ((({} : painting.Painter)).next_priority ≤ painting.kWorkingPriorityBase →
      ∀ q ∈ painting.committedPriorities {},
        ∀ p ∈ painting.workingPriorities {}, q < p) ∧
    ((({} : painting.Painter)).next_priority ≤ painting.kMenuLayerPriority →
      ∀ q ∈ painting.committedPriorities {},
        ∀ ml, (({} : painting.Painter)).menu_layer = some ml → q < ml.priority) :=
  priority_bands_reachable {} Relation.ReflTransGen.refl

end opengl
